import Mathlib

/-!
Shallow embedding of the agent orchestration loop of `app/agent.py`
(E-commerce chatbot): the PLAN -> ACT -> OBSERVE -> REFLECT loop of class
`Agent`, together with its keyword classifier, prerequisite scanner,
preference inference, SQL-marker extraction, reflection / refinement policy,
termination check and finalizer.

Conventions of the embedding:
* Python strings are Lean `String`s; `str.lower` is mapped ASCII-wise
  (`Char.toLower`), Python's `\w`/`\d` character classes are read as their
  ASCII subsets and `\s` as `Char.isWhitespace`; all goals and messages in
  the repository are ASCII, so the behaviours coincide there.
* Tool results are string-keyed Python dicts read only through
  `result.get(key, default)` plus the containment test `"error" in result`;
  they are embedded as a record whose `error` field keeps the presence
  information (`Option`) and whose payload fields carry the defaulted value.
* The (possibly stateful, possibly raising) host tools are abstracted by an
  environment: a registration predicate plus a map from the index of the
  executed action to the produced result.  The agent is deterministic, so
  indexing responses by the position of the call loses no generality.
* Python exceptions that can escape `Agent.run` (they exist: attribute
  access on a non-string brand inside `_apply_memory_to_question`, which
  runs in `_choose_action`, outside the `try` that guards `_execute`) are
  embedded with `Except String`.
-/

namespace AgentProof

/-- The apostrophe character, used inside several runtime messages. -/
def apos : String := String.singleton (Char.ofNat 39)

/-- `startsWithChars pat l` : `pat` is an initial segment of `l`. -/
def startsWithChars : List Char → List Char → Bool
  | [], _ => true
  | _ :: _, [] => false
  | p :: ps, c :: cs => p = c && startsWithChars ps cs

/-- `containsChars l pat` : `pat` occurs contiguously inside `l`
(embedding of Python's `pat in l` on strings). -/
def containsChars : List Char → List Char → Bool
  | [], pat => pat.isEmpty
  | c :: rest, pat => startsWithChars pat (c :: rest) || containsChars rest pat

/-- Python `needle in hay` for strings. -/
def strIn (needle hay : String) : Bool :=
  containsChars hay.data needle.data

/-- Python `str.lower` (ASCII-wise). -/
def lowerStr (s : String) : String := ⟨s.data.map Char.toLower⟩

/-- Python `\w` (ASCII reading): letters, digits, underscore. -/
def isWordChar (c : Char) : Bool := c.isAlphanum || c = '_'

/-- Maximal runs of word characters of a string, left to right
(`acc` holds the reversed current run). -/
def wordRunsAux : List Char → List Char → List (List Char)
  | [], acc => if acc.isEmpty then [] else [acc.reverse]
  | c :: rest, acc =>
    if isWordChar c then wordRunsAux rest (c :: acc)
    else if acc.isEmpty then wordRunsAux rest []
    else acc.reverse :: wordRunsAux rest []

/-- Maximal runs of word characters of a string, left to right. -/
def wordRuns (cs : List Char) : List (List Char) := wordRunsAux cs []

/-- Numeric value of a list of ASCII digits. -/
def parseDigits (ds : List Char) : Nat :=
  ds.foldl (fun n c => n * 10 + (c.toNat - 48)) 0

/-- First token (maximal word run) made of digits only whose length lies in
`[lo, hi]` — the first match of the Python regex `\b\d{lo,hi}\b`. -/
def firstDigitToken (lo hi : Nat) (cs : List Char) : Option (List Char) :=
  (wordRuns cs).find?
    (fun run => run.all Char.isDigit && decide (lo ≤ run.length) && decide (run.length ≤ hi))

/-- Whether the Python regex `\b\d{lo,hi}\b` matches somewhere in the text. -/
def hasDigitToken (lo hi : Nat) (s : String) : Bool :=
  (firstDigitToken lo hi s.data).isSome

/-- If one of the literals `under` / `below` / `less than` starts at the head
of the list, the remaining characters after it. -/
def priceKeywordTail (cs : List Char) : Option (List Char) :=
  if startsWithChars "under".data cs then some (cs.drop 5)
  else if startsWithChars "below".data cs then some (cs.drop 5)
  else if startsWithChars "less than".data cs then some (cs.drop 9)
  else none

/-- After `\s*`, a greedy `\d{3,6}` capture: at least three digits must
follow the optional whitespace; at most six are taken. -/
def digitsAfterGap (cs : List Char) : Option Nat :=
  let rest := cs.dropWhile Char.isWhitespace
  let ds := rest.takeWhile Char.isDigit
  if 3 ≤ ds.length then some (parseDigits (ds.take 6)) else none

/-- First match of the Python regex `(?:under|below|less than)\s*(\d{3,6})`:
scan left to right for a price keyword followed by an optional gap and
three to six digits. -/
def searchUnderNum : List Char → Option Nat
  | [] => none
  | c :: rest =>
    match priceKeywordTail (c :: rest) with
    | some tail =>
      match digitsAfterGap tail with
      | some n => some n
      | none => searchUnderNum rest
    | none => searchUnderNum rest

/-- Python `str.strip()` on a character list. -/
def stripChars (cs : List Char) : List Char :=
  ((cs.dropWhile Char.isWhitespace).reverse.dropWhile Char.isWhitespace).reverse

/-- Case-insensitive `startsWithChars` (the pattern is given lower-case). -/
def ciStarts (pat cs : List Char) : Bool :=
  startsWithChars pat (cs.map Char.toLower)

/-- Characters after the first case-insensitive occurrence of `pat`. -/
def afterMarker (pat : List Char) : List Char → Option (List Char)
  | [] => if pat.isEmpty then some [] else none
  | c :: rest =>
    if ciStarts pat (c :: rest) then some ((c :: rest).drop pat.length)
    else afterMarker pat rest

/-- Characters before the first case-insensitive occurrence of `pat`
(`none` when `pat` does not occur). -/
def beforeMarker (pat : List Char) : List Char → Option (List Char)
  | [] => none
  | c :: rest =>
    if ciStarts pat (c :: rest) then some []
    else match beforeMarker pat rest with
      | some t => some (c :: t)
      | none => none

/-- `Agent._extract_sql`: take the first capture of the regex
`<SQL>(.*?)</SQL>` (case-insensitive, dot-all) and strip it; `none` when the
pattern does not match. -/
def extractSql (payload : String) : Option String :=
  match afterMarker "<sql>".data payload.data with
  | none => none
  | some afterOpen =>
    match beforeMarker "</sql>".data afterOpen with
    | none => none
    | some content => some ⟨stripChars content⟩

/-- A Python value stored in the preference snapshot (the repository only
ever stores strings for `brand` and ints for `price_ceiling`, but `run`
accepts any mapping). -/
inductive PyVal where
  | pyStr (s : String)
  | pyInt (n : Int)
deriving DecidableEq, Repr

/-- Python truthiness of a `PyVal`. -/
def PyVal.truthy : PyVal → Bool
  | .pyStr s => s ≠ ""
  | .pyInt n => n ≠ 0

/-- Python `str(v)`. -/
def PyVal.pyStrOf : PyVal → String
  | .pyStr s => s
  | .pyInt n => toString n

/-- Python truthiness of `memory.get(key)`. -/
def optTruthy : Option PyVal → Bool
  | none => false
  | some v => v.truthy

/-- Python truthiness of an optional string artifact (`data.get(key)`):
falsy when missing, `None`, or the empty string. -/
def strOptTruthy : Option String → Bool
  | none => false
  | some s => s ≠ ""

/-- The preference snapshot passed to `Agent.run` (only the keys `brand`
and `price_ceiling` are ever read). -/
structure Memory where
  brand : Option PyVal := none
  price_ceiling : Option PyVal := none
deriving DecidableEq, Repr

/-- The staged preference updates built by `Agent._guess_preferences`. -/
structure MemUpdates where
  brand : Option String := none
  price_ceiling : Option Nat := none
deriving DecidableEq, Repr

/-- `FAQ_KEYWORDS` of `app/agent.py` (source order). -/
def FAQ_KEYWORDS : List String :=
  ["return", "refund", "shipping", "payment", "warranty", "delivery", "exchange"]

/-- `SQL_KEYWORDS` of `app/agent.py` (source order). -/
def SQL_KEYWORDS : List String :=
  ["price", "cost", "cheap", "discount", "rating", "brand", "size",
   "availability", "stock", "show", "list", "buy", "product", "shoe",
   "shoes", "laptop", "phones"]

/-- `BRAND_HINTS` of `app/agent.py`.  In Python this is a `set`, whose
iteration order is unspecified; the order only matters in
`_guess_preferences` when a goal mentions several brands, which no claim
exercises.  We fix the source-literal order. -/
def BRAND_HINTS : List String :=
  ["nike", "puma", "adidas", "reebok", "apple", "samsung"]

/-- `Agent._mentions`: some keyword occurs as a substring of the text. -/
def mentions (text : String) (keywords : List String) : Bool :=
  keywords.any (fun w => strIn w text)

/-- Step status of the plan. -/
inductive Status where
  | pending
  | inProgress
  | completed
deriving DecidableEq, Repr

/-- One plan step: a tool name and its status. -/
structure Step where
  tool : String
  status : Status
deriving DecidableEq, Repr

/-- Plan type: `"faq"` or `"sql"` in the source. -/
inductive PlanType where
  | faq
  | sql
deriving DecidableEq, Repr

/-- The artifact map `plan["data"]`.  Every key the source ever writes is a
field; `Option` distinguishes an absent key from a present one (for string
artifacts a present-but-falsy `None`/`""` value and an absent key are
indistinguishable through `data.get`, which is how the source reads them). -/
structure PlanData where
  faq_items : Option (List String) := none
  answer : Option String := none
  sql_wrapped : Option String := none
  sql_query : Option String := none
  rows : Option (List String) := none
  columns : Option (List String) := none
  error : Option String := none
  refine_hint : Bool := false
  no_matches : Bool := false
  verbalization : Option String := none
  memory_updates : MemUpdates := {}
deriving DecidableEq, Repr

/-- `plan` dict built by `Agent._make_initial_plan`. -/
structure Plan where
  type : PlanType
  steps : List Step
  needs_clarification : List String
  data : PlanData
  retries : Nat
deriving DecidableEq, Repr

/-- Classification rule of `Agent._make_initial_plan`: FAQ keywords first,
then SQL keywords, default FAQ. -/
def classify (goal : String) : PlanType :=
  let lowered := lowerStr goal
  if mentions lowered FAQ_KEYWORDS then .faq
  else if mentions lowered SQL_KEYWORDS then .sql
  else .faq

/-- The brand prerequisite of `Agent._missing_constraints`:
`any(hint in lowered_goal for hint in BRAND_HINTS) or memory.get("brand")`. -/
def brandSignal (loweredGoal : String) (memory : Memory) : Bool :=
  BRAND_HINTS.any (fun hint => strIn hint loweredGoal) || optTruthy memory.brand

/-- The budget prerequisite of `Agent._missing_constraints`:
`bool(re.search(r"\b\d{3,5}\b", lowered_goal)) or memory.get("price_ceiling")`.
Note the regex accepts three to five digits. -/
def budgetSignal (loweredGoal : String) (memory : Memory) : Bool :=
  hasDigitToken 3 5 loweredGoal || optTruthy memory.price_ceiling

/-- `Agent._missing_constraints`. -/
def missingConstraints (loweredGoal : String) (memory : Memory) : List String :=
  (if brandSignal loweredGoal memory then [] else ["preferred brand"])
    ++ (if budgetSignal loweredGoal memory then [] else ["budget ceiling"])

/-- `Agent._guess_preferences` (the argument is the lowered goal, as at the
call site in `_make_initial_plan`). -/
def guessPreferences (text : String) (memory : Memory) : MemUpdates :=
  let brandUpd : Option String :=
    if optTruthy memory.brand then none
    else (BRAND_HINTS.find? (fun b => strIn b text)).map String.capitalize
  let priceUpd : Option Nat :=
    if optTruthy memory.price_ceiling then none
    else match searchUnderNum text.data with
      | some n => some n
      | none => (firstDigitToken 3 6 text.data).map parseDigits
  { brand := brandUpd, price_ceiling := priceUpd }

/-- Steps of an FAQ plan. -/
def faqSteps : List Step :=
  [⟨"faq_search", .pending⟩, ⟨"faq_answer", .pending⟩]

/-- Steps of a data-query plan. -/
def sqlSteps : List Step :=
  [⟨"sql_generate", .pending⟩, ⟨"sql_run", .pending⟩, ⟨"verbalize", .pending⟩]

/-- `Agent._make_initial_plan`. -/
def makeInitialPlan (goal : String) (memory : Memory) : Plan :=
  let lowered := lowerStr goal
  let t := classify goal
  { type := t
    steps := match t with | .faq => faqSteps | .sql => sqlSteps
    needs_clarification := match t with
      | .faq => []
      | .sql => missingConstraints lowered memory
    data := { memory_updates := guessPreferences lowered memory }
    retries := 0 }

/-- A tool result dict.  `error` keeps key presence (`"error" in result`);
the payload fields carry the value of `result.get(key, default)`.  Row and
FAQ-item contents are opaque to the agent, so they are kept as strings. -/
structure ToolResult where
  error : Option String := none
  items : List String := []
  text : String := ""
  sql_wrapped : String := ""
  rows : List String := []
  columns : List String := []
deriving DecidableEq, Repr

/-- The host environment: which tool names are registered, and the result
produced by the `k`-th executed action of the turn.  A raising tool and a
tool returning an `error` field are indistinguishable past the `try` of
`Agent._execute`, so both are the `error` field of the response. -/
structure Env where
  registered : String → Bool
  respond : Nat → ToolResult

/-- `Agent._execute` for the `k`-th executed action of a turn: a registry
miss yields the fixed error result without consuming a tool behaviour. -/
def callResult (env : Env) (k : Nat) (tool : String) : ToolResult :=
  if env.registered tool then env.respond k
  else { error := some ("Tool " ++ apos ++ tool ++ apos ++ " is not registered.") }

/-- Arguments built by `Agent._choose_action` for each tool. -/
inductive ToolArgs where
  | faqSearch (query : String) (k : Nat)
  | faqAnswer (question : String) (context : List String)
  | sqlGenerate (question : String)
  | sqlRun (sql : String)
  | verbalize (question : String) (data : List String)
deriving DecidableEq, Repr

/-- The ephemeral action record `{tool, args, index}`. -/
structure Action where
  tool : String
  args : ToolArgs
  idx : Nat
deriving DecidableEq, Repr

/-- The AttributeError message raised by `int.lower` access. -/
def lowerAttrError : String :=
  apos ++ "int" ++ apos ++ " object has no attribute " ++ apos ++ "lower" ++ apos

/-- Python `value.lower()` on a snapshot value: raises AttributeError on a
non-string. -/
def pyLower : PyVal → Except String String
  | .pyStr s => .ok (lowerStr s)
  | .pyInt _ => .error lowerAttrError

/-- `Agent._apply_memory_to_question`.  The brand annotation evaluates
`memory["brand"].lower()`, which raises for a truthy non-string brand —
outside the failure boundary of `_execute`. -/
def applyMemoryToQuestion (goal : String) (memory : Memory) : Except String String :=
  let price_piece : List String :=
    match memory.price_ceiling with
    | some v => if v.truthy && !(strIn v.pyStrOf goal) then
        ["(Keep price under " ++ v.pyStrOf ++ ")"] else []
    | none => []
  match memory.brand with
  | some v =>
    if v.truthy then
      match pyLower v with
      | .error e => .error e
      | .ok b =>
        let brand_piece := if strIn b (lowerStr goal) then []
          else ["(Prefer brand " ++ v.pyStrOf ++ ")"]
        .ok (String.intercalate " " ([goal] ++ brand_piece ++ price_piece))
    else .ok (String.intercalate " " ([goal] ++ price_piece))
  | none => .ok (String.intercalate " " ([goal] ++ price_piece))

/-- The refinement suffix appended to the question when `refine_hint` is
set. -/
def refineSuffix : String :=
  " (If no products match, relax filters slightly and broaden the search.)"

/-- The step scan of `Agent._choose_action`: first `pending` step wins; an
unknown tool name is skipped (`continue`); a pending `sql_run` without a
truthy generated query aborts the scan (`return None`). -/
def scanSteps (goal : String) (memory : Memory) (d : PlanData) :
    List Step → Nat → Except String (Option Action)
  | [], _ => .ok none
  | step :: rest, i =>
    if step.status ≠ .pending then scanSteps goal memory d rest (i + 1)
    else if step.tool = "faq_search" then
      .ok (some ⟨"faq_search", .faqSearch goal 3, i⟩)
    else if step.tool = "faq_answer" then
      .ok (some ⟨"faq_answer", .faqAnswer goal (d.faq_items.getD []), i⟩)
    else if step.tool = "sql_generate" then
      match applyMemoryToQuestion goal memory with
      | .error e => .error e
      | .ok q =>
        let q := if d.refine_hint then q ++ refineSuffix else q
        .ok (some ⟨"sql_generate", .sqlGenerate q, i⟩)
    else if step.tool = "sql_run" then
      match d.sql_query with
      | some s => if s = "" then .ok none else .ok (some ⟨"sql_run", .sqlRun s, i⟩)
      | none => .ok none
    else if step.tool = "verbalize" then
      .ok (some ⟨"verbalize", .verbalize goal (d.rows.getD []), i⟩)
    else scanSteps goal memory d rest (i + 1)

/-- `Agent._choose_action` (the status update to `in_progress` is applied
by the loop body). -/
def chooseAction (goal : String) (memory : Memory) (p : Plan) :
    Except String (Option Action) :=
  scanSteps goal memory p.data p.steps 0

/-- Set the status of the step at index `i` (no-op out of bounds, as in the
guarded Python assignment). -/
def setStatus : List Step → Nat → Status → List Step
  | [], _, _ => []
  | s :: rest, 0, st => ⟨s.tool, st⟩ :: rest
  | s :: rest, n + 1, st => s :: setStatus rest n st

/-- `Agent._reset_sql_steps`: SQL-related steps back to pending; generated
query, rows and verbalization artifacts discarded. -/
def resetSqlSteps (p : Plan) : Plan :=
  { p with
    steps := p.steps.map (fun s =>
      if s.tool = "sql_generate" || s.tool = "sql_run" || s.tool = "verbalize"
      then ⟨s.tool, .pending⟩ else s)
    data := { p.data with sql_query := none, rows := none, verbalization := none } }

/-- The terminal error recorded when SQL extraction fails. -/
def invalidSqlMsg : String := "The model did not return a valid SQL query."

/-- `Agent._reflect` on plan `p` (after the step was set `in_progress`):
returns the updated plan and whether the refinement reset ran. -/
def reflect (a : Action) (result : ToolResult) (p : Plan) : Plan × Bool :=
  let p := { p with steps := setStatus p.steps a.idx .completed }
  match result.error with
  | some e => ({ p with data := { p.data with error := some e } }, false)
  | none =>
    if a.tool = "faq_search" then
      ({ p with data := { p.data with faq_items := some result.items } }, false)
    else if a.tool = "faq_answer" then
      ({ p with data := { p.data with answer := some result.text } }, false)
    else if a.tool = "sql_generate" then
      let wrapped := result.sql_wrapped
      let extracted := extractSql wrapped
      let p := { p with data := { p.data with
        sql_wrapped := some wrapped, sql_query := extracted } }
      if !strOptTruthy extracted then
        ({ p with data := { p.data with error := some invalidSqlMsg } }, false)
      else (p, false)
    else if a.tool = "sql_run" then
      let rows := result.rows
      let p := { p with data := { p.data with
        rows := some rows, columns := some result.columns } }
      if rows.isEmpty then
        if p.retries < 1 then
          let p := { p with retries := p.retries + 1 }
          let p := { p with data := { p.data with refine_hint := true } }
          (resetSqlSteps p, true)
        else ({ p with data := { p.data with no_matches := true } }, false)
      else (p, false)
    else if a.tool = "verbalize" then
      ({ p with data := { p.data with verbalization := some result.text } }, false)
    else (p, false)

/-- `Agent._should_stop`. -/
def shouldStop (p : Plan) : Bool :=
  if strOptTruthy p.data.error then true
  else match p.type with
    | .faq => strOptTruthy p.data.answer
    | .sql => strOptTruthy p.data.verbalization || p.data.no_matches

/-- One trace record `{tool, args, ok}`. -/
structure TraceRec where
  tool : String
  args : ToolArgs
  ok : Bool
deriving DecidableEq, Repr

/-- Ghost history of one executed loop iteration, for stating temporal
properties: selected step index, its tool, whether the refinement reset ran
during the iteration, and the retries counter right after it. -/
structure HistEntry where
  sel : Nat
  tool : String
  reset : Bool
  retriesAfter : Nat
deriving DecidableEq, Repr

/-- The per-turn loop state (`AgentState` plus the accumulators of
`Agent.run` and the ghost history). -/
structure LoopState where
  plan : Plan
  lastResult : Option ToolResult := none
  stepIndex : Option Nat := none
  trace : List TraceRec := []
  toolOrder : List String := []
  hist : List HistEntry := []
deriving DecidableEq, Repr

/-- One executed iteration of the loop body of `Agent.run`, given the
selected action. -/
def loopBody (env : Env) (st : LoopState) (a : Action) : LoopState :=
  let p1 := { st.plan with steps := setStatus st.plan.steps a.idx .inProgress }
  let result := callResult env st.trace.length a.tool
  let rb := reflect a result p1
  { plan := rb.1
    lastResult := some result
    stepIndex := some a.idx
    trace := st.trace ++ [⟨a.tool, a.args, result.error.isNone⟩]
    toolOrder := st.toolOrder ++ [a.tool]
    hist := st.hist ++ [⟨a.idx, a.tool, rb.2, rb.1.retries⟩] }

/-- The bounded loop of `Agent.run` (`for _ in range(self.max_steps)`). -/
def loop (env : Env) (goal : String) (memory : Memory) :
    Nat → LoopState → Except String LoopState
  | 0, st => .ok st
  | n + 1, st =>
    match chooseAction goal memory st.plan with
    | .error e => .error e
    | .ok none => .ok st
    | .ok (some a) =>
      let st' := loopBody env st a
      if shouldStop st'.plan then .ok st' else loop env goal memory n st'

/-- `Agent._format_trace`. -/
def formatTrace (toolOrder : List String) : String :=
  if toolOrder.isEmpty then "Trace: none"
  else "Trace: " ++ String.intercalate " -> " toolOrder

/-- `Agent._format_clarification`. -/
def formatClarification (needs : List String) : String :=
  let joined :=
    if needs.length ≤ 2 then String.intercalate " and " needs
    else String.intercalate ", " needs.dropLast ++ ", and " ++ (needs.getLastD "")
  "Could you share the " ++ joined ++ " you" ++ apos ++ "re looking for?"

/-- The final text resolved by `Agent._finalize` before the trace line is
appended (what the spec calls the resolved final text). -/
def resolvedText (p : Plan) (overrideText : Option String) : String :=
  let t0 := overrideText.getD ""
  let t1 :=
    if t0 = "" && strOptTruthy p.data.error then
      "Sorry, something went wrong: " ++ p.data.error.getD ""
    else if t0 = "" && p.type = .faq then
      if strOptTruthy p.data.answer then p.data.answer.getD ""
      else "I don" ++ apos ++ "t have an answer right now."
    else if t0 = "" && p.type = .sql then
      if strOptTruthy p.data.verbalization then p.data.verbalization.getD ""
      else if p.data.no_matches then "No matches."
      else "I" ++ apos ++ "m still working on it, but I couldn" ++ apos ++
        "t find matching products."
    else t0
  if t1 = "" then "I don" ++ apos ++ "t have an answer right now." else t1

/-- The result record returned by `Agent.run`. -/
structure RunResult where
  text : String
  trace : List TraceRec
  plan : Plan
  goal : String
  memory_updates : MemUpdates
deriving DecidableEq, Repr

/-- `Agent._finalize`. -/
def finalize (goal : String) (p : Plan) (toolOrder : List String)
    (traceRecords : List TraceRec) (overrideText : Option String) : RunResult :=
  { text := resolvedText p overrideText ++ "\n" ++ formatTrace toolOrder
    trace := traceRecords
    plan := p
    goal := goal
    memory_updates := p.data.memory_updates }

/-- `max_steps` of the agent as instantiated by the host and the tests. -/
def maxSteps : Nat := 5

/-- Fresh loop state for a plan. -/
def initState (p : Plan) : LoopState :=
  { plan := p }

/-- `Agent.run` up to (but excluding) finalization: the loop state at the
end of the turn, or the escaped Python exception. -/
def runStateE (env : Env) (goal : String) (memory : Memory) :
    Except String LoopState :=
  loop env goal memory maxSteps (initState (makeInitialPlan goal memory))

/-- `Agent.run`: clarification short-circuit, then the bounded loop, then
finalization.  `Except.error` is an escaped Python exception. -/
def runE (env : Env) (goal : String) (memory : Memory) :
    Except String RunResult :=
  let p := makeInitialPlan goal memory
  if p.needs_clarification.isEmpty then
    match runStateE env goal memory with
    | .error e => .error e
    | .ok st => .ok (finalize goal st.plan st.toolOrder st.trace none)
  else
    .ok (finalize goal p [] [] (some (formatClarification p.needs_clarification)))

/-- Whether the snapshot's brand entry cannot raise on `.lower()`: absent,
a string, or falsy (falsy values short-circuit the `and` before the
attribute access). -/
def brandOk (memory : Memory) : Bool :=
  match memory.brand with
  | some (.pyInt n) => !(PyVal.pyInt n).truthy
  | _ => true

/-- `1` when the step at index 1 (the `sql_run` step of a data-query plan)
is pending, else `0`; bookkeeping for the refinement-bound invariant. -/
def pendBonus (p : Plan) : Nat :=
  match p.steps[1]? with
  | some s => if s.status = .pending then 1 else 0
  | none => 0

/-- No iteration from position `k` on ran the refinement reset. -/
def NoResetIn (hist : List HistEntry) (k : Nat) : Prop :=
  ∀ (j : Nat) (e : HistEntry), k ≤ j → hist[j]? = some e → e.reset = false

/-- Every step selected at some iteration with no reset from that iteration
on is no longer pending in the current step list. -/
def SelInv (hist : List HistEntry) (steps : List Step) : Prop :=
  ∀ (k : Nat) (e : HistEntry), hist[k]? = some e → NoResetIn hist k →
    ∀ (s : Step), steps[e.sel]? = some s → s.status ≠ .pending

/-- A step index recurs in the selection history only with a refinement
reset in between: whenever iterations `k₁ < k₂` select the same step index,
some iteration in `[k₁, k₂)` (possibly `k₁` itself, whose reset runs after
its selection) ran the refinement reset. -/
def GoodHist (hist : List HistEntry) : Prop :=
  ∀ (k₁ k₂ : Nat) (e₁ e₂ : HistEntry), k₁ < k₂ →
    hist[k₁]? = some e₁ → hist[k₂]? = some e₂ → e₁.sel = e₂.sel →
    ((hist.take k₂).drop k₁).any HistEntry.reset = true

/-- Registers every tool; the responses alternate between a well-formed
`sql_generate` payload and an empty-rows `sql_run` result — the concrete
double-refinement environment. -/
def envRefine : Env :=
  { registered := fun _ => true
    respond := fun k =>
      if k % 2 = 0 then { sql_wrapped := "<SQL>SELECT 1</SQL>" } else {} }

/-- Concrete data-query goal used by witnesses (brand and budget known). -/
def goalRefine : String := "List Adidas shoes under 4000."

/-- Final loop state of the double-refinement run. -/
def stRefine : LoopState :=
  match runStateE envRefine goalRefine {} with
  | .ok st => st
  | .error _ => initState (makeInitialPlan goalRefine {})

/-- Loop state of the double-refinement run after one iteration. -/
def stRefine1 : LoopState :=
  match loop envRefine goalRefine {} 1 (initState (makeInitialPlan goalRefine {})) with
  | .ok st => st
  | .error _ => initState (makeInitialPlan goalRefine {})

/-- The result record of a turn that did not raise (fallback record
otherwise); used to name concrete run results in closed statements. -/
def runOr (env : Env) (goal : String) (memory : Memory) : RunResult :=
  match runE env goal memory with
  | .ok r => r
  | .error _ => finalize goal (makeInitialPlan goal memory) [] [] none

/-- Healthy tools whose second `sql_run` invocation (call index 3) faults
with `boom`; the first returns empty rows. -/
def envSecondFail : Env :=
  { registered := fun _ => true
    respond := fun k =>
      if k % 2 = 0 then { sql_wrapped := "<SQL>SELECT 1</SQL>" }
      else if k = 1 then {} else { error := some "boom" } }

/-- Healthy `sql_generate`, faulting `sql_run` (first invocation). -/
def envFirstFail : Env :=
  { registered := fun _ => true
    respond := fun k =>
      if k = 0 then { sql_wrapped := "<SQL>SELECT 1</SQL>" }
      else { error := some "Only SELECT statements are allowed." } }

/-! ## Helper lemmas -/

theorem startsWithChars_refl_append (pat t : List Char) :
    startsWithChars pat (pat ++ t) = true := by
  induction pat with
  | nil => rfl
  | cons c cs ih => simp [startsWithChars, ih]

theorem containsChars_nil_pat (l : List Char) : containsChars l [] = true := by
  cases l <;> simp [containsChars, startsWithChars, List.isEmpty]

theorem containsChars_sandwich (pre pat suf : List Char) :
    containsChars (pre ++ pat ++ suf) pat = true := by
  induction pre with
  | nil =>
    cases pat with
    | nil => simpa using containsChars_nil_pat suf
    | cons p ps =>
      simp only [List.nil_append, List.cons_append, containsChars]
      rw [Bool.or_eq_true]
      exact Or.inl (startsWithChars_refl_append (p :: ps) suf)
  | cons a pre ih =>
    simp only [List.cons_append, containsChars]
    rw [Bool.or_eq_true]
    exact Or.inr ih

theorem strIn_sandwich (m a b : String) : strIn m (a ++ m ++ b) = true := by
  unfold strIn
  rw [String.data_append, String.data_append]
  exact containsChars_sandwich a.data m.data b.data

theorem setStatus_map_tool (l : List Step) (i : Nat) (st : Status) :
    (setStatus l i st).map Step.tool = l.map Step.tool := by
  induction l generalizing i with
  | nil => rfl
  | cons s rest ih =>
    cases i with
    | zero => simp [setStatus]
    | succ n => simp [setStatus, ih]

theorem setStatus_getElem?_ne (l : List Step) (i j : Nat) (st : Status)
    (h : j ≠ i) : (setStatus l i st)[j]? = l[j]? := by
  induction l generalizing i j with
  | nil => rfl
  | cons s rest ih =>
    cases i with
    | zero =>
      cases j with
      | zero => exact absurd rfl h
      | succ m => simp [setStatus]
    | succ n =>
      cases j with
      | zero => simp [setStatus]
      | succ m => simpa [setStatus] using ih n m (by omega)

theorem setStatus_getElem?_self (l : List Step) (i : Nat) (st : Status)
    (s : Step) (h : l[i]? = some s) :
    (setStatus l i st)[i]? = some ⟨s.tool, st⟩ := by
  induction l generalizing i with
  | nil => simp at h
  | cons a rest ih =>
    cases i with
    | zero => simp_all [setStatus]
    | succ n => simpa [setStatus] using ih n (by simpa using h)

theorem scanSteps_some {goal : String} {memory : Memory} {d : PlanData} :
    ∀ (steps : List Step) (i : Nat) (a : Action),
    scanSteps goal memory d steps i = .ok (some a) →
    ∃ j s, steps[j]? = some s ∧ s.status = .pending ∧ s.tool = a.tool ∧
      a.idx = i + j := by
  intro steps
  induction steps with
  | nil => intro i a h; simp [scanSteps] at h
  | cons step rest ih =>
    intro i a h
    unfold scanSteps at h
    by_cases hst : step.status = .pending
    · simp only [hst, ne_eq, not_true_eq_false, if_false] at h
      by_cases h1 : step.tool = "faq_search"
      · simp only [h1, if_true] at h
        refine ⟨0, step, by simp, hst, ?_⟩
        cases h; simp [h1]
      · simp only [h1, if_false] at h
        by_cases h2 : step.tool = "faq_answer"
        · simp only [h2, if_true] at h
          refine ⟨0, step, by simp, hst, ?_⟩
          cases h; simp [h2]
        · simp only [h2, if_false] at h
          by_cases h3 : step.tool = "sql_generate"
          · simp only [h3, if_true] at h
            cases hm : applyMemoryToQuestion goal memory with
            | error e => rw [hm] at h; cases h
            | ok q =>
              rw [hm] at h
              refine ⟨0, step, by simp, hst, ?_⟩
              cases h; simp [h3]
          · simp only [h3, if_false] at h
            by_cases h4 : step.tool = "sql_run"
            · simp only [h4, if_true] at h
              cases hq : d.sql_query with
              | none => rw [hq] at h; cases h
              | some s =>
                rw [hq] at h
                by_cases hs : s = ""
                · simp only [hs, if_true] at h; cases h
                · simp only [hs, if_false] at h
                  refine ⟨0, step, by simp, hst, ?_⟩
                  cases h; simp [h4]
            · simp only [h4, if_false] at h
              by_cases h5 : step.tool = "verbalize"
              · simp only [h5, if_true] at h
                refine ⟨0, step, by simp, hst, ?_⟩
                cases h; simp [h5]
              · simp only [h5, if_false] at h
                obtain ⟨j, s, hj, hp, ht, hi⟩ := ih (i + 1) a h
                exact ⟨j + 1, s, by simpa using hj, hp, ht, by omega⟩
    · simp only [ne_eq, hst, not_false_eq_true, if_true] at h
      obtain ⟨j, s, hj, hp, ht, hi⟩ := ih (i + 1) a h
      exact ⟨j + 1, s, by simpa using hj, hp, ht, by omega⟩

theorem chooseAction_some {goal : String} {memory : Memory} {p : Plan}
    {a : Action} (h : chooseAction goal memory p = .ok (some a)) :
    ∃ s, p.steps[a.idx]? = some s ∧ s.status = .pending ∧ s.tool = a.tool := by
  obtain ⟨j, s, hj, hp, ht, hi⟩ := scanSteps_some p.steps 0 a h
  exact ⟨s, by simpa [hi] using hj, hp, ht⟩

theorem resetSqlSteps_map_tool (p : Plan) :
    (resetSqlSteps p).steps.map Step.tool = p.steps.map Step.tool := by
  simp only [resetSqlSteps, List.map_map]
  apply List.map_congr_left
  intro s _
  by_cases h : s.tool = "sql_generate" || s.tool = "sql_run" || s.tool = "verbalize" <;>
    simp [h, Function.comp]

theorem reflect_map_tool (a : Action) (r : ToolResult) (p : Plan) :
    ((reflect a r p).1).steps.map Step.tool = p.steps.map Step.tool := by
  unfold reflect
  cases r.error <;> simp only [] <;> try split_ifs
  all_goals simp [resetSqlSteps_map_tool, setStatus_map_tool]

theorem reflect_type (a : Action) (r : ToolResult) (p : Plan) :
    ((reflect a r p).1).type = p.type := by
  unfold reflect
  cases r.error <;> simp only [] <;> try split_ifs
  all_goals simp [resetSqlSteps]

theorem reflect_memory_updates (a : Action) (r : ToolResult) (p : Plan) :
    ((reflect a r p).1).data.memory_updates = p.data.memory_updates := by
  unfold reflect
  cases r.error <;> simp only [] <;> try split_ifs
  all_goals simp [resetSqlSteps]

theorem reflect_retries_le (a : Action) (r : ToolResult) (p : Plan)
    (h : p.retries ≤ 1) : ((reflect a r p).1).retries ≤ 1 := by
  unfold reflect
  cases r.error <;> simp only [] <;> try split_ifs
  all_goals simp_all [resetSqlSteps]
  all_goals omega

theorem reflect_clarification (a : Action) (r : ToolResult) (p : Plan) :
    ((reflect a r p).1).needs_clarification = p.needs_clarification := by
  unfold reflect
  cases r.error <;> simp only [] <;> try split_ifs
  all_goals simp [resetSqlSteps]

/-- Generic invariant-preservation principle for the bounded loop. -/
theorem loop_preserves {env : Env} {goal : String} {memory : Memory}
    (P : LoopState → Prop)
    (hP : ∀ st a, chooseAction goal memory st.plan = .ok (some a) → P st →
      P (loopBody env st a)) :
    ∀ (n : Nat) (st st' : LoopState), P st →
      loop env goal memory n st = .ok st' → P st' := by
  intro n
  induction n with
  | zero =>
    intro st st' hp h
    unfold loop at h
    cases h
    exact hp
  | succ n ih =>
    intro st st' hp h
    unfold loop at h
    cases hca : chooseAction goal memory st.plan with
    | error e => rw [hca] at h; cases h
    | ok oa =>
      cases oa with
      | none => rw [hca] at h; cases h; exact hp
      | some a =>
        rw [hca] at h
        simp only [] at h
        have hp' := hP st a hca hp
        by_cases hs : shouldStop (loopBody env st a).plan
        · rw [if_pos hs] at h; cases h; exact hp'
        · rw [if_neg hs] at h; exact ih _ _ hp' h

/-- The loop never rewrites an already-recorded trace entry. -/
theorem loop_trace_stable {env : Env} {goal : String} {memory : Memory} :
    ∀ (n : Nat) (st st' : LoopState) (k : Nat),
      loop env goal memory n st = .ok st' → k < st.trace.length →
      st'.trace[k]? = st.trace[k]? := by
  intro n
  induction n with
  | zero =>
    intro st st' k h _
    unfold loop at h
    cases h
    rfl
  | succ n ih =>
    intro st st' k h hk
    unfold loop at h
    cases hca : chooseAction goal memory st.plan with
    | error e => rw [hca] at h; cases h
    | ok oa =>
      cases oa with
      | none => rw [hca] at h; cases h; rfl
      | some a =>
        rw [hca] at h
        simp only [] at h
        by_cases hs : shouldStop (loopBody env st a).plan
        · rw [if_pos hs] at h
          cases h
          exact List.getElem?_append_left hk
        · rw [if_neg hs] at h
          have hk' : k < (loopBody env st a).trace.length := by
            simp only [loopBody, List.length_append, List.length_cons,
              List.length_nil]
            omega
          rw [ih _ _ _ h hk']
          exact List.getElem?_append_left hk

/-- The loop adds at most `n` trace records. -/
theorem loop_trace_le {env : Env} {goal : String} {memory : Memory} :
    ∀ (n : Nat) (st st' : LoopState),
      loop env goal memory n st = .ok st' →
      st'.trace.length ≤ st.trace.length + n := by
  intro n
  induction n with
  | zero =>
    intro st st' h
    unfold loop at h
    cases h
    omega
  | succ n ih =>
    intro st st' h
    unfold loop at h
    cases hca : chooseAction goal memory st.plan with
    | error e => rw [hca] at h; cases h
    | ok oa =>
      cases oa with
      | none =>
        rw [hca] at h
        cases h
        omega
      | some a =>
        rw [hca] at h
        simp only [] at h
        by_cases hs : shouldStop (loopBody env st a).plan
        · rw [if_pos hs] at h
          cases h
          simp only [loopBody, List.length_append, List.length_cons, List.length_nil]
          omega
        · rw [if_neg hs] at h
          have := ih _ _ h
          simp only [loopBody, List.length_append, List.length_cons, List.length_nil] at this
          omega

theorem applyMemory_ok {goal : String} {memory : Memory}
    (h : brandOk memory = true) :
    ∃ q, applyMemoryToQuestion goal memory = .ok q := by
  unfold applyMemoryToQuestion
  unfold brandOk at h
  cases hb : memory.brand with
  | none => exact ⟨_, rfl⟩
  | some v =>
    cases v with
    | pyStr s =>
      by_cases ht : (PyVal.pyStr s).truthy <;>
        simp [ht, pyLower] <;>
        split_ifs <;>
        exact ⟨_, rfl⟩
    | pyInt n =>
      rw [hb] at h
      simp only [Bool.not_eq_true'] at h
      dsimp only
      rw [if_neg (by simp [h])]
      exact ⟨_, rfl⟩

theorem scanSteps_ne_error {goal : String} {memory : Memory} {d : PlanData}
    {q : String} (hq : applyMemoryToQuestion goal memory = .ok q) :
    ∀ (steps : List Step) (i : Nat) (e : String),
      scanSteps goal memory d steps i ≠ .error e := by
  intro steps
  induction steps with
  | nil => intro i e h; simp [scanSteps] at h
  | cons step rest ih =>
    intro i e h
    unfold scanSteps at h
    by_cases hst : step.status = .pending
    · simp only [hst, ne_eq, not_true_eq_false, if_false] at h
      by_cases h1 : step.tool = "faq_search"
      · simp only [h1, if_true] at h; cases h
      · simp only [h1, if_false] at h
        by_cases h2 : step.tool = "faq_answer"
        · simp only [h2, if_true] at h; cases h
        · simp only [h2, if_false] at h
          by_cases h3 : step.tool = "sql_generate"
          · simp only [h3, if_true, hq] at h; cases h
          · simp only [h3, if_false] at h
            by_cases h4 : step.tool = "sql_run"
            · simp only [h4, if_true] at h
              cases hsq : d.sql_query with
              | none => rw [hsq] at h; cases h
              | some s =>
                rw [hsq] at h
                dsimp only at h
                split_ifs at h <;> cases h
            · simp only [h4, if_false] at h
              by_cases h5 : step.tool = "verbalize"
              · simp only [h5, if_true] at h; cases h
              · simp only [h5, if_false] at h
                exact ih (i + 1) e h
    · simp only [ne_eq, hst, not_false_eq_true, if_true] at h
      exact ih (i + 1) e h

/-- With a well-typed brand the loop never escapes with an exception. -/
theorem loop_ok {env : Env} {goal : String} {memory : Memory}
    (h : brandOk memory = true) :
    ∀ (n : Nat) (st : LoopState), ∃ st',
      loop env goal memory n st = .ok st' := by
  obtain ⟨q, hq⟩ := @applyMemory_ok goal memory h
  intro n
  induction n with
  | zero => intro st; exact ⟨st, rfl⟩
  | succ n ih =>
    intro st
    unfold loop
    cases hca : chooseAction goal memory st.plan with
    | error e => exact absurd hca (scanSteps_ne_error hq st.plan.steps 0 e)
    | ok oa =>
      cases oa with
      | none => exact ⟨st, rfl⟩
      | some a =>
        simp only []
        by_cases hs : shouldStop (loopBody env st a).plan
        · rw [if_pos hs]; exact ⟨_, rfl⟩
        · rw [if_neg hs]; exact ih _

/-! ## Claim C5 -/

/-- C5: for every goal whose lower-cased text contains at least one
FAQ-domain keyword, the plan type is FAQ, even when the text also contains
data-query-domain keywords. -/
theorem c5_faq_precedence (goal : String) (memory : Memory)
    (h : mentions (lowerStr goal) FAQ_KEYWORDS = true) :
    (makeInitialPlan goal memory).type = .faq := by
  have : (makeInitialPlan goal memory).type = classify goal := rfl
  rw [this]
  unfold classify
  simp [h]

/-- C5 witness: a goal matching both an FAQ keyword (`return`) and SQL
keywords (`cheap`, `shoes`) is classified FAQ. -/
theorem c5_faq_precedence_witness :
    mentions (lowerStr "Show cheap shoes and the return policy") FAQ_KEYWORDS = true ∧
    mentions (lowerStr "Show cheap shoes and the return policy") SQL_KEYWORDS = true ∧
    (makeInitialPlan "Show cheap shoes and the return policy" {}).type = .faq :=
  ⟨by decide, by decide,
    c5_faq_precedence "Show cheap shoes and the return policy" {} (by decide)⟩

/-! ## Claim C3 -/

/-- C3 counterexample: the goal `show laptop under 100000` contains a
six-digit number (a `\b\d{3,6}\b` token), is classified DATA_QUERY, and yet
`budget ceiling` is appended to `clarificationNeeds` — the prerequisite
check uses `\b\d{3,5}\b`, which a six-digit figure fails. -/
theorem c3_counterexample :
    hasDigitToken 3 6 (lowerStr "show laptop under 100000") = true ∧
    (makeInitialPlan "show laptop under 100000" {}).type = .sql ∧
    "budget ceiling" ∈ (makeInitialPlan "show laptop under 100000" {}).needs_clarification :=
  ⟨by decide, by decide, by decide⟩

/-- C3 (amended): in the prerequisite check of a DATA_QUERY plan, budget
counts as known exactly when a three-to-FIVE-digit number appears in the
goal text or the snapshot carries a truthy price ceiling; in particular a
goal containing a three-to-five-digit number never yields the
`budget ceiling` clarification need. -/
theorem c3_budget_known (goal : String) (memory : Memory)
    (h : (makeInitialPlan goal memory).type = .sql) :
    ("budget ceiling" ∉ (makeInitialPlan goal memory).needs_clarification ↔
      (hasDigitToken 3 5 (lowerStr goal) = true ∨
        optTruthy memory.price_ceiling = true)) ∧
    (hasDigitToken 3 5 (lowerStr goal) = true →
      "budget ceiling" ∉ (makeInitialPlan goal memory).needs_clarification) := by
  have ht : classify goal = .sql := h
  have hneeds : (makeInitialPlan goal memory).needs_clarification =
      missingConstraints (lowerStr goal) memory := by
    unfold makeInitialPlan
    rw [ht]
  rw [hneeds]
  unfold missingConstraints
  have key : ("budget ceiling" ∉
      (if brandSignal (lowerStr goal) memory then [] else ["preferred brand"]) ++
        (if budgetSignal (lowerStr goal) memory then [] else ["budget ceiling"])) ↔
      budgetSignal (lowerStr goal) memory = true := by
    by_cases hb : brandSignal (lowerStr goal) memory <;>
      by_cases hp : budgetSignal (lowerStr goal) memory <;>
      simp [hb, hp]
  constructor
  · rw [key]
    unfold budgetSignal
    rw [Bool.or_eq_true]
  · intro hd
    rw [key]
    unfold budgetSignal
    rw [Bool.or_eq_true]
    exact Or.inl hd

/-- C3 witness: `List Adidas shoes under 4000.` carries a four-digit
figure, so the amended equivalence yields no budget clarification need. -/
theorem c3_budget_known_witness :
    (makeInitialPlan goalRefine {}).type = .sql ∧
    hasDigitToken 3 5 (lowerStr goalRefine) = true ∧
    "budget ceiling" ∉ (makeInitialPlan goalRefine {}).needs_clarification :=
  ⟨by decide, by decide,
    (c3_budget_known goalRefine {} (by decide)).2 (by decide)⟩

/-! ## Claim C8 -/

/-- C8: for the goal `Need Puma shoes under 3000` with an empty preference
snapshot, whatever the tools do (success, failure, or absence from the
registry), `run` returns and its `memory_updates` field equals
`{brand: "Puma", price_ceiling: 3000}`. -/
theorem c8_preference_inference (env : Env) :
    ∃ r, runE env "Need Puma shoes under 3000" {} = .ok r ∧
      r.memory_updates = { brand := some "Puma", price_ceiling := some 3000 } := by
  obtain ⟨st', hst⟩ := @loop_ok env "Need Puma shoes under 3000" {} (by decide)
    maxSteps (initState (makeInitialPlan "Need Puma shoes under 3000" {}))
  have hmu : st'.plan.data.memory_updates =
      { brand := some "Puma", price_ceiling := some 3000 } := by
    refine loop_preserves
      (fun st => st.plan.data.memory_updates =
        { brand := some "Puma", price_ceiling := some 3000 })
      (fun st a _ hp => ?_) maxSteps _ st' (by decide) hst
    show (loopBody env st a).plan.data.memory_updates = _
    simp only [loopBody]
    rw [reflect_memory_updates]
    exact hp
  refine ⟨finalize "Need Puma shoes under 3000" st'.plan st'.toolOrder st'.trace none,
    ?_, ?_⟩
  · unfold runE runStateE
    rw [if_pos (by decide), hst]
  · simp [finalize, hmu]

/-! ## Claim C10 -/

theorem whitespace_cases {c : Char} (h : c.isWhitespace = true) :
    c = ' ' ∨ c = '\t' ∨ c = '\r' ∨ c = '\n' := by
  have h' := h
  simp only [Char.isWhitespace, decide_eq_true_eq, Bool.or_eq_true] at h'
  tauto

theorem toLower_of_whitespace {c : Char} (h : c.isWhitespace = true) :
    c.toLower = c := by
  rcases whitespace_cases h with h' | h' | h' | h' <;> subst h' <;> decide

theorem ciStarts_close_false {c : Char} (hc : c.isWhitespace = true)
    (l : List Char) : ciStarts "</sql>".data (c :: l) = false := by
  have hne : c ≠ '<' := by
    rcases whitespace_cases hc with h' | h' | h' | h' <;> simp [h']
  simp [ciStarts, startsWithChars, toLower_of_whitespace hc]
  intro h'
  exact absurd h'.symm hne

theorem beforeMarker_close_of_ws (ws : List Char)
    (hws : ∀ c ∈ ws, c.isWhitespace = true) :
    beforeMarker "</sql>".data (ws ++ "</SQL>".data) = some ws := by
  induction ws with
  | nil => decide
  | cons c rest ih =>
    have hc := hws c (by simp)
    have ih' := ih (fun x hx => hws x (by simp [hx]))
    show (beforeMarker "</sql>".data ((c :: rest) ++ "</SQL>".data)) = some (c :: rest)
    rw [List.cons_append, beforeMarker]
    rw [if_neg (by rw [ciStarts_close_false hc]; exact Bool.false_ne_true)]
    rw [ih']

theorem dropWhile_ws_nil (ws : List Char)
    (hws : ∀ c ∈ ws, c.isWhitespace = true) :
    ws.dropWhile Char.isWhitespace = [] := by
  induction ws with
  | nil => rfl
  | cons c rest ih =>
    simp only [List.dropWhile_cons, hws c (by simp), if_true]
    exact ih (fun x hx => hws x (by simp [hx]))

theorem extractSql_ws (ws : String)
    (hws : ∀ c ∈ ws.data, c.isWhitespace = true) :
    extractSql ("<SQL>" ++ ws ++ "</SQL>") = some "" := by
  unfold extractSql
  have hdata : ("<SQL>" ++ ws ++ "</SQL>").data =
      "<SQL>".data ++ (ws.data ++ "</SQL>".data) := by
    simp [String.data_append]
  rw [hdata]
  have hopen : afterMarker "<sql>".data
      ("<SQL>".data ++ (ws.data ++ "</SQL>".data)) =
      some (ws.data ++ "</SQL>".data) := by
    show afterMarker "<sql>".data
      ('<' :: 'S' :: 'Q' :: 'L' :: '>' :: (ws.data ++ "</SQL>".data)) = _
    rw [afterMarker]
    rw [if_pos (by simp [ciStarts, startsWithChars])]
    rfl
  rw [hopen]
  dsimp only
  rw [beforeMarker_close_of_ws ws.data hws]
  dsimp only
  have hstrip : stripChars ws.data = [] := by
    unfold stripChars
    rw [dropWhile_ws_nil ws.data hws]
    rfl
  rw [hstrip]

/-- C10: when `sql_generate` succeeds and its payload carries the
`<SQL>...</SQL>` markers with only whitespace between them, the Reflector
records the terminal error `The model did not return a valid SQL query.` —
the extraction-failure branch fires whenever the trimmed extracted query is
empty, not only when the markers are absent. -/
theorem c10_whitespace_extraction (ws : String)
    (hws : ∀ c ∈ ws.data, c.isWhitespace = true)
    (a : Action) (r : ToolResult) (p : Plan)
    (ha : a.tool = "sql_generate") (he : r.error = none)
    (hw : r.sql_wrapped = "<SQL>" ++ ws ++ "</SQL>") :
    ((reflect a r p).1).data.error = some invalidSqlMsg := by
  unfold reflect
  rw [he, hw, ha]
  simp [extractSql_ws ws hws, strOptTruthy]

/-- C10 witness: a payload whose markers enclose two spaces trips the
extraction-failure error. -/
theorem c10_whitespace_extraction_witness :
    ((reflect ⟨"sql_generate", .sqlGenerate "q", 0⟩
        { sql_wrapped := "<SQL>  </SQL>" }
        ⟨.sql, sqlSteps, [], {}, 0⟩).1).data.error = some invalidSqlMsg :=
  c10_whitespace_extraction "  " (by decide)
    ⟨"sql_generate", .sqlGenerate "q", 0⟩
    { sql_wrapped := "<SQL>  </SQL>" }
    ⟨.sql, sqlSteps, [], {}, 0⟩ rfl rfl rfl

/-! ## Claim C6 -/

theorem resolvedText_some (p : Plan) (m : String) (hm : m ≠ "") :
    resolvedText p (some m) = m := by
  unfold resolvedText
  simp [hm]

/-- C6: on a DATA_QUERY turn missing both the brand and the budget signal,
`run` invokes no tool: the trace record list is empty, the trace line reads
`none`, and the text asks for `the preferred brand and budget ceiling`. -/
theorem c6_clarification_short_circuit (env : Env) (goal : String)
    (memory : Memory)
    (ht : (makeInitialPlan goal memory).type = .sql)
    (hb : brandSignal (lowerStr goal) memory = false)
    (hp : budgetSignal (lowerStr goal) memory = false) :
    ∃ r, runE env goal memory = .ok r ∧ r.trace = [] ∧
      r.text = "Could you share the preferred brand and budget ceiling you" ++
        apos ++ "re looking for?\nTrace: none" ∧
      strIn "the preferred brand and budget ceiling" r.text = true := by
  have ht' : classify goal = .sql := ht
  have hneeds : (makeInitialPlan goal memory).needs_clarification =
      ["preferred brand", "budget ceiling"] := by
    have h0 : (makeInitialPlan goal memory).needs_clarification =
        missingConstraints (lowerStr goal) memory := by
      unfold makeInitialPlan
      rw [ht']
    rw [h0]
    unfold missingConstraints
    rw [hb, hp]
    rfl
  have hmsg : formatClarification ["preferred brand", "budget ceiling"] =
      "Could you share the preferred brand and budget ceiling you" ++ apos ++
        "re looking for?" := by decide
  have htext : (finalize goal (makeInitialPlan goal memory) [] []
      (some (formatClarification
        (makeInitialPlan goal memory).needs_clarification))).text =
      "Could you share the preferred brand and budget ceiling you" ++ apos ++
        "re looking for?\nTrace: none" := by
    show resolvedText (makeInitialPlan goal memory)
        (some (formatClarification
          (makeInitialPlan goal memory).needs_clarification)) ++ "\n" ++
        formatTrace [] = _
    rw [hneeds, hmsg, resolvedText_some _ _ (by decide)]
    decide
  refine ⟨_, ?_, rfl, htext, ?_⟩
  · unfold runE
    rw [if_neg (by rw [hneeds]; decide)]
  · rw [htext]
    decide

/-- C6 witness: `show me something nice` is a DATA_QUERY goal with no
brand hint, no budget figure and an empty snapshot. -/
theorem c6_clarification_short_circuit_witness :
    runE envRefine "show me something nice" {} =
      .ok (runOr envRefine "show me something nice" {}) ∧
    (runOr envRefine "show me something nice" {}).trace = [] ∧
    (runOr envRefine "show me something nice" {}).text =
      "Could you share the preferred brand and budget ceiling you" ++ apos ++
        "re looking for?\nTrace: none" := by
  obtain ⟨r, h1, h2, h3, _⟩ := c6_clarification_short_circuit envRefine
    "show me something nice" {} (by decide) (by decide) (by decide)
  have hro : runOr envRefine "show me something nice" {} = r := by
    unfold runOr
    rw [h1]
  rw [hro]
  exact ⟨h1, h2, h3⟩

/-! ## Claim C2 -/

/-- C2 counterexample: with every tool registered and healthy, a snapshot
whose brand is the integer `5` makes `run` raise
`AttributeError: 'int' object has no attribute 'lower'` from the Action
Selector (outside the Tool Invoker's failure boundary), on the DATA_QUERY
goal `show shoes 500` that passes the clarification check. -/
theorem c2_counterexample :
    runE envRefine "show shoes 500" { brand := some (.pyInt 5) } =
      .error lowerAttrError := by
  rfl

/-- C2 (amended): for every goal and every snapshot whose brand entry is
absent, falsy, or a string, `run` returns a well-formed result record and
never raises; the step bound holds and each trace record's `ok` flag is
exactly the success of the corresponding tool invocation, so tool faults
and registry misses surface only as data. -/
theorem c2_run_total (env : Env) (goal : String) (memory : Memory)
    (h : brandOk memory = true) :
    ∃ r, runE env goal memory = .ok r ∧ r.goal = goal ∧
      r.trace.length ≤ maxSteps ∧
      ∀ (k : Nat) (rec : TraceRec), r.trace[k]? = some rec →
        rec.ok = (callResult env k rec.tool).error.isNone := by
  by_cases hc : (makeInitialPlan goal memory).needs_clarification.isEmpty
  · obtain ⟨st', hst⟩ := @loop_ok env goal memory
      h maxSteps (initState (makeInitialPlan goal memory))
    have hP := loop_preserves
      (fun st => ∀ (k : Nat) (rec : TraceRec), st.trace[k]? = some rec →
        rec.ok = (callResult env k rec.tool).error.isNone)
      (fun st a _ hp => by
        intro k rec hk
        simp only [loopBody] at hk
        rcases Nat.lt_trichotomy k st.trace.length with hlt | heq | hgt
        · rw [List.getElem?_append_left hlt] at hk
          exact hp k rec hk
        · subst heq
          rw [List.getElem?_append_right (le_refl _)] at hk
          simp only [Nat.sub_self, List.getElem?_cons_zero, Option.some.injEq] at hk
          subst hk
          rfl
        · rw [List.getElem?_eq_none (by simp; omega)] at hk
          cases hk)
      maxSteps _ st' (fun k rec hk => by simp [initState] at hk) hst
    refine ⟨finalize goal st'.plan st'.toolOrder st'.trace none, ?_, rfl, ?_, hP⟩
    · unfold runE runStateE
      rw [if_pos hc, hst]
    · have := loop_trace_le maxSteps _ _ hst
      simpa [initState] using this
  · refine ⟨finalize goal (makeInitialPlan goal memory) [] []
      (some (formatClarification (makeInitialPlan goal memory).needs_clarification)),
      ?_, rfl, ?_, ?_⟩
    · unfold runE
      rw [if_neg hc]
    · show ([] : List TraceRec).length ≤ maxSteps
      simp [maxSteps]
    · intro k rec hk
      simp [finalize] at hk

/-- C2 witness: an ordinary small-talk-free goal with an empty snapshot
returns normally. -/
theorem c2_run_total_witness :
    runE envRefine "hello there" {} = .ok (runOr envRefine "hello there" {}) ∧
    (runOr envRefine "hello there" {}).goal = "hello there" := by
  obtain ⟨r, h1, h2, _, _⟩ := c2_run_total envRefine "hello there" {} (by decide)
  have hro : runOr envRefine "hello there" {} = r := by
    unfold runOr
    rw [h1]
  rw [hro]
  exact ⟨h1, h2⟩

/-! ## Claim C9 -/

/-- C9: the retries counter starts at `0` and satisfies
`0 ≤ retries ≤ 1` after every loop iteration and at the end of every
non-raising turn (the Reflector increments it only when it is strictly
below `1`). -/
theorem c9_retries_invariant (env : Env) (goal : String) (memory : Memory) :
    (makeInitialPlan goal memory).retries = 0 ∧
    ∀ st', runStateE env goal memory = .ok st' →
      (0 ≤ st'.plan.retries ∧ st'.plan.retries ≤ 1) ∧
      ∀ e ∈ st'.hist, e.retriesAfter ≤ 1 := by
  refine ⟨rfl, fun st' hst => ?_⟩
  have hP := loop_preserves
    (fun st => st.plan.retries ≤ 1 ∧ ∀ e ∈ st.hist, e.retriesAfter ≤ 1)
    (fun st a _ hp => by
      constructor
      · exact reflect_retries_le _ _ _ hp.1
      · intro e he
        simp only [loopBody, List.mem_append, List.mem_singleton] at he
        rcases he with he | he
        · exact hp.2 e he
        · subst he
          exact reflect_retries_le _ _ _ hp.1)
    maxSteps _ st' ⟨by show (0 : Nat) ≤ 1; omega, by simp [initState]⟩ hst
  exact ⟨⟨Nat.zero_le _, hP.1⟩, hP.2⟩

/-- C9 witness: the double-refinement run ends with `retries = 1`. -/
theorem c9_retries_invariant_witness :
    (makeInitialPlan goalRefine {}).retries = 0 ∧
    stRefine.plan.retries ≤ 1 := by
  have h := c9_retries_invariant envRefine goalRefine {}
  exact ⟨h.1, ((h.2 stRefine rfl).1).2⟩

/-! ## Claim C4 -/

theorem setStatus_setStatus (l : List Step) (i : Nat) (s1 s2 : Status) :
    setStatus (setStatus l i s1) i s2 = setStatus l i s2 := by
  induction l generalizing i with
  | nil => rfl
  | cons a rest ih =>
    cases i with
    | zero => simp [setStatus]
    | succ n => simp [setStatus, ih]

/-- When the Reflector did not run the refinement reset, its only step
change is marking the acted step completed. -/
theorem reflect_snd_false_steps (a : Action) (x : ToolResult) (p : Plan)
    (h : (reflect a x p).2 = false) :
    (reflect a x p).1.steps = setStatus p.steps a.idx .completed := by
  unfold reflect at h ⊢
  cases hx : x.error <;> rw [hx] at h <;> simp only [] at h ⊢ <;>
    try split_ifs at h ⊢
  all_goals simp_all [resetSqlSteps]

theorem mem_slice_of_getElem {hist : List HistEntry} {j k₁ k₂ : Nat}
    {e : HistEntry} (h1 : k₁ ≤ j) (h2 : j < k₂) (he : hist[j]? = some e) :
    e ∈ (hist.take k₂).drop k₁ := by
  have hget : ((hist.take k₂).drop k₁)[j - k₁]? = some e := by
    rw [List.getElem?_drop]
    have hj : k₁ + (j - k₁) = j := by omega
    rw [hj]
    simp [List.getElem?_take, h2, he]
  exact List.getElem?_mem hget

theorem noResetIn_of_slice {hist : List HistEntry} {k : Nat}
    (h : (hist.drop k).any HistEntry.reset = false) : NoResetIn hist k := by
  intro j e hkj hj
  have hmem : e ∈ hist.drop k := by
    have hget : (hist.drop k)[j - k]? = some e := by
      rw [List.getElem?_drop]
      have hj' : k + (j - k) = j := by omega
      rw [hj']
      exact hj
    exact List.getElem?_mem hget
  simpa using (List.any_eq_false.mp h) e hmem

/-- Core preservation step for the reselect-only-after-reset property, at
the level of the history and step lists. -/
theorem selinv_goodhist_aux (hist : List HistEntry)
    (steps newSteps : List Step) (ne : HistEntry) (s₀ : Step)
    (hs₀ : steps[ne.sel]? = some s₀) (hpend : s₀.status = .pending)
    (hreset : ne.reset = false → newSteps = setStatus steps ne.sel .completed)
    (hSI : SelInv hist steps) (hGH : GoodHist hist) :
    SelInv (hist ++ [ne]) newSteps ∧ GoodHist (hist ++ [ne]) := by
  have hGH' : GoodHist (hist ++ [ne]) := by
    intro k₁ k₂ e₁ e₂ hlt hk₁ hk₂ hsel12
    have hk₂len : k₂ < hist.length + 1 := by
      have := (List.getElem?_eq_some.mp hk₂).1
      simpa using this
    rcases Nat.lt_or_ge k₂ hist.length with hcase | hcase
    · rw [List.getElem?_append_left (show k₁ < hist.length by omega)] at hk₁
      rw [List.getElem?_append_left hcase] at hk₂
      rw [List.take_append_of_le_length (show k₂ ≤ hist.length by omega)]
      exact hGH k₁ k₂ e₁ e₂ hlt hk₁ hk₂ hsel12
    · have hk₂eq : k₂ = hist.length := by omega
      subst hk₂eq
      have he₂ : e₂ = ne := by
        rw [List.getElem?_append_right (le_refl _)] at hk₂
        simpa using hk₂.symm
      have hk₁lt : k₁ < hist.length := hlt
      rw [List.getElem?_append_left hk₁lt] at hk₁
      rw [show (hist ++ [ne]).take hist.length = hist from by
        rw [List.take_append_of_le_length (le_refl _), List.take_length]]
      by_cases hany : (hist.drop k₁).any HistEntry.reset = true
      · exact hany
      · exfalso
        have hnr : NoResetIn hist k₁ :=
          noResetIn_of_slice (by simpa using hany)
        refine hSI k₁ e₁ hk₁ hnr s₀ ?_ hpend
        rw [hsel12, he₂]
        exact hs₀
  refine ⟨?_, hGH'⟩
  intro k e hk hnr s hs
  have hklen : k < hist.length + 1 := by
    have := (List.getElem?_eq_some.mp hk).1
    simpa using this
  cases hrt : ne.reset with
  | true =>
    exfalso
    have hend : (hist ++ [ne])[hist.length]? = some ne := by simp
    have := hnr hist.length ne (by omega) hend
    rw [hrt] at this
    cases this
  | false =>
    have hsteps : newSteps = setStatus steps ne.sel .completed := hreset hrt
    rcases Nat.lt_or_ge k hist.length with hcase | hcase
    · rw [List.getElem?_append_left hcase] at hk
      have hnr' : NoResetIn hist k := by
        intro j e₃ hkj hj
        refine hnr j e₃ hkj ?_
        rw [List.getElem?_append_left (List.getElem?_eq_some.mp hj).1]
        exact hj
      by_cases hesel : e.sel = ne.sel
      · rw [hsteps, hesel, setStatus_getElem?_self _ _ _ s₀ hs₀] at hs
        injection hs with hs
        rw [← hs]
        simp
      · rw [hsteps, setStatus_getElem?_ne _ _ _ _ hesel] at hs
        exact hSI k e hk hnr' s hs
    · have hkeq : k = hist.length := by omega
      subst hkeq
      have he : e = ne := by
        rw [List.getElem?_append_right (le_refl _)] at hk
        simpa using hk.symm
      rw [he, hsteps, setStatus_getElem?_self _ _ _ s₀ hs₀] at hs
      injection hs with hs
      rw [← hs]
      simp

/-- Instantiation of the preservation step on the loop body. -/
theorem selinv_goodhist_step (env : Env) {goal : String} {memory : Memory}
    (st : LoopState) (a : Action)
    (hca : chooseAction goal memory st.plan = .ok (some a))
    (hq : SelInv st.hist st.plan.steps ∧ GoodHist st.hist) :
    SelInv (loopBody env st a).hist (loopBody env st a).plan.steps ∧
      GoodHist (loopBody env st a).hist := by
  obtain ⟨s₀, hs₀, hpend, _⟩ := chooseAction_some hca
  obtain ⟨ne, pr, hpr, hh, hpl, hsel, hres⟩ :
      ∃ (ne : HistEntry) (pr : Plan × Bool),
        pr = reflect a (callResult env st.trace.length a.tool)
          { st.plan with steps := setStatus st.plan.steps a.idx .inProgress } ∧
        (loopBody env st a).hist = st.hist ++ [ne] ∧
        (loopBody env st a).plan = pr.1 ∧ ne.sel = a.idx ∧ ne.reset = pr.2 :=
    ⟨_, _, rfl, rfl, rfl, rfl, rfl⟩
  rw [hh, hpl]
  refine selinv_goodhist_aux st.hist st.plan.steps pr.1.steps ne s₀ ?_ hpend ?_
    hq.1 hq.2
  · rw [hsel]
    exact hs₀
  · intro h0
    have h2 : (reflect a (callResult env st.trace.length a.tool)
        { st.plan with steps := setStatus st.plan.steps a.idx .inProgress }).2 =
        false := by
      rw [← hpr, ← hres]
      exact h0
    rw [hsel, hpr, reflect_snd_false_steps _ _ _ h2]
    show setStatus (setStatus st.plan.steps a.idx .inProgress) a.idx .completed = _
    exact setStatus_setStatus _ _ _ _

/-- C4 (amended): once a step's status has been set to COMPLETED, the
Action Selector returns it again within the same turn only if the
refinement policy reset it to PENDING in between — whenever iterations
`k₁ < k₂` of a turn select the same step index, some iteration in
`[k₁, k₂)` ran the refinement reset. -/
theorem c4_completed_only_after_reset (env : Env) (goal : String)
    (memory : Memory) (st' : LoopState)
    (h : runStateE env goal memory = .ok st') : GoodHist st'.hist := by
  have hP := loop_preserves
    (fun st => SelInv st.hist st.plan.steps ∧ GoodHist st.hist)
    (fun st a hca hq => selinv_goodhist_step env st a hca hq)
    maxSteps _ st'
    ⟨fun k e hk => by simp [initState] at hk,
      fun k₁ k₂ e₁ e₂ _ hk₁ => by simp [initState] at hk₁⟩ h
  exact hP.2

/-- C4 counterexample: in the double-refinement run, the `sql_generate`
step (index 0) is COMPLETED at the end of iteration 1, yet the Action
Selector returns step 0 again at iteration 3 of the same turn (selection
history `[0, 1, 0, 1]`), because the refinement reset of iteration 2 set
it back to PENDING. -/
theorem c4_counterexample :
    loop envRefine goalRefine {} 1 (initState (makeInitialPlan goalRefine {})) =
      .ok stRefine1 ∧
    stRefine1.plan.steps[0]? = some ⟨"sql_generate", .completed⟩ ∧
    runStateE envRefine goalRefine {} = .ok stRefine ∧
    stRefine.hist.map HistEntry.sel = [0, 1, 0, 1] ∧
    stRefine.hist.map HistEntry.tool =
      ["sql_generate", "sql_run", "sql_generate", "sql_run"] :=
  ⟨rfl, rfl, rfl, rfl, rfl⟩

/-- C4 witness: iterations 1 and 3 of the double-refinement run select
step 0 twice, and a reset is indeed found in between. -/
theorem c4_completed_only_after_reset_witness :
    ((stRefine.hist.take 2).drop 0).any HistEntry.reset = true := by
  have h := c4_completed_only_after_reset envRefine goalRefine {} stRefine rfl
  exact h 0 2 ⟨0, "sql_generate", false, 0⟩ ⟨0, "sql_generate", false, 1⟩
    (by omega) rfl rfl rfl

/-! ## Shared infrastructure for the refinement-bound and error-path
claims -/

theorem loop_succ (env : Env) (goal : String) (memory : Memory) (n : Nat)
    (st : LoopState) :
    loop env goal memory (n + 1) st =
      match chooseAction goal memory st.plan with
      | .error e => .error e
      | .ok none => .ok st
      | .ok (some a) =>
        if shouldStop (loopBody env st a).plan then .ok (loopBody env st a)
        else loop env goal memory n (loopBody env st a) := rfl

theorem loopBody_map_tool (env : Env) (st : LoopState) (a : Action) :
    (loopBody env st a).plan.steps.map Step.tool =
      st.plan.steps.map Step.tool := by
  show ((reflect a _ _).1).steps.map Step.tool = _
  rw [reflect_map_tool]
  exact setStatus_map_tool _ _ _

/-- Every recorded trace entry names a tool of the plan's step list. -/
theorem loop_trace_tools {env : Env} {goal : String} {memory : Memory}
    (n : Nat) (st st' : LoopState)
    (h : loop env goal memory n st = .ok st')
    (h0 : ∀ rec ∈ st.trace, rec.tool ∈ st.plan.steps.map Step.tool) :
    ∀ rec ∈ st'.trace, rec.tool ∈ st'.plan.steps.map Step.tool := by
  refine loop_preserves
    (fun st => ∀ rec ∈ st.trace, rec.tool ∈ st.plan.steps.map Step.tool)
    (fun st a hca hp => ?_) n st st' h0 h
  intro rec hrec
  rw [loopBody_map_tool]
  have hmem : rec ∈ st.trace ++
      [⟨a.tool, a.args, (callResult env st.trace.length a.tool).error.isNone⟩] :=
    hrec
  rcases List.mem_append.mp hmem with hold | hnew
  · exact hp rec hold
  · obtain ⟨s₀, hs₀, _, htool⟩ := chooseAction_some hca
    have : (st.plan.steps.map Step.tool)[a.idx]? = some a.tool := by
      rw [List.getElem?_map, hs₀]
      simp [htool]
    have := List.getElem?_mem this
    simp only [List.mem_singleton] at hnew
    rw [hnew]
    exact this

theorem append_ne_empty_left (a b : String) (ha : a ≠ "") : a ++ b ≠ "" := by
  intro h
  apply ha
  cases a with
  | mk l =>
    cases b with
    | mk l2 =>
      have hd : l ++ l2 = [] := by
        have := congrArg String.data h
        simpa [String.data_append] using this
      have hl : l = [] := (List.append_eq_nil.mp hd).1
      subst hl
      rfl

theorem resolvedText_error (p : Plan) (h : strOptTruthy p.data.error = true) :
    resolvedText p none =
      "Sorry, something went wrong: " ++ p.data.error.getD "" := by
  unfold resolvedText
  have hne := append_ne_empty_left "Sorry, something went wrong: "
    (p.data.error.getD "") (by decide)
  simp [h, hne]

theorem resolvedText_no_matches (p : Plan)
    (he : strOptTruthy p.data.error = false) (ht : p.type = .sql)
    (hv : strOptTruthy p.data.verbalization = false)
    (hn : p.data.no_matches = true) :
    resolvedText p none = "No matches." := by
  unfold resolvedText
  simp [he, hv, hn, ht]

/-! ## Claim C1: refinement-bound machinery -/

theorem loopBody_type (env : Env) (st : LoopState) (a : Action) :
    (loopBody env st a).plan.type = st.plan.type := by
  show ((reflect a _ _).1).type = _
  rw [reflect_type]

/-- Reflecting any tool other than `sql_run` neither resets nor touches the
retries counter. -/
theorem reflect_ne_sql_run (a : Action) (x : ToolResult) (p : Plan)
    (hm : a.tool ≠ "sql_run") :
    (reflect a x p).2 = false ∧ (reflect a x p).1.retries = p.retries := by
  unfold reflect
  cases x.error <;> simp only [] <;> try split_ifs
  all_goals simp_all

/-- Step-1 pending bookkeeping and retries across a `sql_run` reflection:
either the step stays completed and retries are unchanged, or the
refinement reset re-pends it and bumps retries from strictly below one. -/
theorem reflect_sql_run_cases (a : Action) (x : ToolResult) (p : Plan)
    (s1 : Step) (hm : a.tool = "sql_run") (hi : a.idx = 1)
    (hs1 : p.steps[1]? = some s1) (ht1 : s1.tool = "sql_run") :
    (pendBonus (reflect a x p).1 = 0 ∧ (reflect a x p).1.retries = p.retries) ∨
    (pendBonus (reflect a x p).1 = 1 ∧
      (reflect a x p).1.retries = p.retries + 1 ∧ p.retries < 1) := by
  have hset : (setStatus p.steps 1 .completed)[1]? =
      some ⟨s1.tool, .completed⟩ := setStatus_getElem?_self _ _ _ s1 hs1
  unfold reflect
  rw [hi]
  cases x.error <;> simp only [hm] <;> try split_ifs
  all_goals simp_all [pendBonus, resetSqlSteps, List.getElem?_map, hset, ht1]

/-- In a data-query-shaped plan, an action whose tool is `sql_run` sits at
step index 1, which is pending when selected. -/
theorem sql_run_idx {goal : String} {memory : Memory} {p : Plan} {a : Action}
    (hca : chooseAction goal memory p = .ok (some a))
    (hmap : p.steps.map Step.tool = ["sql_generate", "sql_run", "verbalize"])
    (hm : a.tool = "sql_run") :
    a.idx = 1 ∧ pendBonus p = 1 := by
  obtain ⟨s, hs, hpend, htool⟩ := chooseAction_some hca
  have hidx : (p.steps.map Step.tool)[a.idx]? = some "sql_run" := by
    rw [List.getElem?_map, hs]
    simp [htool, hm]
  rw [hmap] at hidx
  have hA : a.idx = 1 := by
    have hlt : a.idx < 3 := by
      by_contra hge
      rw [List.getElem?_eq_none (by simpa using by omega)] at hidx
      cases hidx
    rcases (by omega : a.idx = 0 ∨ a.idx = 1 ∨ a.idx = 2) with h0 | h0 | h0 <;>
      rw [h0] at hidx <;> simp_all
  refine ⟨hA, ?_⟩
  rw [hA] at hs
  simp [pendBonus, hs, hpend]

/-- The refinement-bound invariant: on data-query-shaped plans, the number
of `sql_run` invocations plus the pending bonus of the `sql_run` step never
exceeds `retries + 1`, and `retries` stays at most one, so `sql_run` runs
at most twice. -/
theorem loop_sql_run_bound {env : Env} {goal : String} {memory : Memory}
    (n : Nat) (st st' : LoopState)
    (h : loop env goal memory n st = .ok st')
    (h1 : st.plan.steps.map Step.tool = ["sql_generate", "sql_run", "verbalize"])
    (h2 : st.plan.retries ≤ 1)
    (h3 : st.toolOrder.count "sql_run" + pendBonus st.plan ≤ st.plan.retries + 1)
    (h4 : st.toolOrder = st.trace.map TraceRec.tool) :
    (st'.trace.map TraceRec.tool).count "sql_run" ≤ 2 := by
  have hP := loop_preserves (fun st =>
      st.plan.steps.map Step.tool = ["sql_generate", "sql_run", "verbalize"] ∧
      st.plan.retries ≤ 1 ∧
      st.toolOrder.count "sql_run" + pendBonus st.plan ≤ st.plan.retries + 1 ∧
      st.toolOrder = st.trace.map TraceRec.tool)
    (fun st a hca hp => by
      obtain ⟨hp1, hp2, hp3, hp4⟩ := hp
      obtain ⟨s₀, hs₀, hpend, htool⟩ := chooseAction_some hca
      refine ⟨?_, ?_, ?_, ?_⟩
      · show (loopBody env st a).plan.steps.map Step.tool = _
        rw [loopBody_map_tool]
        exact hp1
      · exact reflect_retries_le _ _ _ hp2
      · show (st.toolOrder ++ [a.tool]).count "sql_run" +
          pendBonus (loopBody env st a).plan ≤ (loopBody env st a).plan.retries + 1
        rw [List.count_append]
        by_cases hm : a.tool = "sql_run"
        · obtain ⟨hidx, hbon⟩ := sql_run_idx hca hp1 hm
          have hcnt1 : List.count "sql_run" [a.tool] = 1 := by simp [hm]
          have hs1' : ({ st.plan with
              steps := setStatus st.plan.steps a.idx .inProgress } : Plan).steps[1]? =
              some ⟨s₀.tool, .inProgress⟩ := by
            show (setStatus st.plan.steps a.idx .inProgress)[1]? = _
            rw [hidx]
            exact setStatus_getElem?_self _ _ _ s₀ (by rw [← hidx]; exact hs₀)
          rcases reflect_sql_run_cases a (callResult env st.trace.length a.tool)
              { st.plan with steps := setStatus st.plan.steps a.idx .inProgress }
              ⟨s₀.tool, .inProgress⟩ hm hidx hs1' (by simp [htool, hm]) with
            ⟨hb0, hr0⟩ | ⟨hb1, hr1, hrlt⟩
          · have hb0' : pendBonus (loopBody env st a).plan = 0 := hb0
            have hr0' : (loopBody env st a).plan.retries = st.plan.retries := hr0
            rw [hb0', hr0', hcnt1]
            rw [hbon] at hp3
            omega
          · have hb1' : pendBonus (loopBody env st a).plan = 1 := hb1
            have hr1' : (loopBody env st a).plan.retries = st.plan.retries + 1 := hr1
            have hrlt' : st.plan.retries < 1 := hrlt
            rw [hb1', hr1', hcnt1]
            rw [hbon] at hp3
            omega
        · obtain ⟨hrs0, hrr0⟩ := reflect_ne_sql_run a
            (callResult env st.trace.length a.tool)
            { st.plan with steps := setStatus st.plan.steps a.idx .inProgress } hm
          have hne1 : a.idx ≠ 1 := by
            intro hcontra
            apply hm
            have : (st.plan.steps.map Step.tool)[1]? = some a.tool := by
              rw [List.getElem?_map, ← hcontra, hs₀]
              simp [htool]
            rw [hp1] at this
            simpa using this.symm
          have hsteps' : (loopBody env st a).plan.steps =
              setStatus st.plan.steps a.idx .completed := by
            show ((reflect a (callResult env st.trace.length a.tool) _).1).steps = _
            rw [reflect_snd_false_steps _ _ _ hrs0]
            show setStatus (setStatus st.plan.steps a.idx .inProgress) a.idx
              .completed = _
            exact setStatus_setStatus _ _ _ _
          have hbon' : pendBonus (loopBody env st a).plan = pendBonus st.plan := by
            unfold pendBonus
            rw [hsteps', setStatus_getElem?_ne _ _ _ _ (fun hcc => hne1 hcc.symm)]
          have hret' : (loopBody env st a).plan.retries = st.plan.retries := hrr0
          have hm' : "sql_run" ≠ a.tool := fun hcc => hm hcc.symm
          have hcnt0 : List.count "sql_run" [a.tool] = 0 := by
            simp [List.count_singleton, hm']
          rw [hbon', hret', hcnt0]
          omega
      · show st.toolOrder ++ [a.tool] = List.map TraceRec.tool (st.trace ++
          ([⟨a.tool, a.args,
            (callResult env st.trace.length a.tool).error.isNone⟩] : List TraceRec))
        rw [List.map_append, hp4]
        rfl)
    n st st' ⟨h1, h2, h3, h4⟩ h
  obtain ⟨_, q2, q3, q4⟩ := hP
  rw [← q4]
  have : pendBonus st'.plan ≥ 0 := Nat.zero_le _
  omega

/-! ## Claim C7 -/

/-- C7 counterexample: when the SECOND `sql_run` invocation faults with
`M = "boom"` (after an empty first result triggered the refinement), the
final text contains `M` but the trace has four entries, not two — the
claim as stated fails. -/
theorem c7_counterexample :
    runE envSecondFail goalRefine {} = .ok (runOr envSecondFail goalRefine {}) ∧
    ((runOr envSecondFail goalRefine {}).trace.map TraceRec.tool)[3]? =
      some "sql_run" ∧
    (callResult envSecondFail 3 "sql_run").error = some "boom" ∧
    strIn "boom" (runOr envSecondFail goalRefine {}).text = true ∧
    (runOr envSecondFail goalRefine {}).trace.length = 4 :=
  ⟨rfl, rfl, rfl, rfl, rfl⟩

/-- C7 (amended): on a DATA_QUERY turn whose FIRST invocation of the
query-execution tool `sql_run` fails with a NONEMPTY error message `M`
(tool fault or registry miss), the final text contains `M` and the trace
record list has exactly two entries, the second of which has `ok = false`.
(The first `sql_run` invocation of any turn sits at trace position 1.) -/
theorem c7_error_short_circuit (env : Env) (goal : String) (memory : Memory)
    (r : RunResult) (M : String)
    (h : runE env goal memory = .ok r)
    (ht1 : (r.trace.map TraceRec.tool)[1]? = some "sql_run")
    (herr : (callResult env 1 "sql_run").error = some M)
    (hM : M ≠ "") :
    r.trace.length = 2 ∧ (r.trace.map TraceRec.ok)[1]? = some false ∧
      strIn M r.text = true := by
  unfold runE at h
  by_cases hc : (makeInitialPlan goal memory).needs_clarification.isEmpty
  case neg =>
    rw [if_neg hc] at h
    injection h with h
    subst h
    simp [finalize] at ht1
  case pos =>
    rw [if_pos hc] at h
    cases hrs : runStateE env goal memory with
    | error e => rw [hrs] at h; cases h
    | ok stF =>
      rw [hrs] at h
      injection h with h
      subst h
      simp only [finalize] at ht1 ⊢
      unfold runStateE maxSteps at hrs
      cases hclass : classify goal with
      | faq =>
        have hplan : makeInitialPlan goal memory =
            ⟨.faq, faqSteps, [],
              { memory_updates := guessPreferences (lowerStr goal) memory }, 0⟩ := by
          simp [makeInitialPlan, hclass]
        have htools := loop_trace_tools 5 _ _ hrs
          (by rw [hplan]; intro rec hrec; simp [initState] at hrec)
        have hmap := loop_preserves
          (fun st => st.plan.steps.map Step.tool = ["faq_search", "faq_answer"])
          (fun st a _ hp => by
            show (loopBody env st a).plan.steps.map Step.tool = _
            rw [loopBody_map_tool]
            exact hp)
          5 _ _ (by rw [hplan]; rfl) hrs
        rw [List.getElem?_map] at ht1
        cases hrec : stF.trace[1]? with
        | none => rw [hrec] at ht1; cases ht1
        | some rec =>
          rw [hrec] at ht1
          have htool : rec.tool = "sql_run" := by simpa using ht1
          have hmem := htools rec (List.getElem?_mem hrec)
          rw [hmap, htool] at hmem
          simp at hmem
      | sql =>
        have hncm : (makeInitialPlan goal memory).needs_clarification =
            missingConstraints (lowerStr goal) memory := by
          unfold makeInitialPlan
          rw [hclass]
        have hnc : missingConstraints (lowerStr goal) memory = [] := by
          rw [← hncm]
          exact List.isEmpty_iff.mp hc
        have hplan : makeInitialPlan goal memory =
            ⟨.sql, sqlSteps, [],
              { memory_updates := guessPreferences (lowerStr goal) memory }, 0⟩ := by
          simp [makeInitialPlan, hclass, hnc]
        rw [hplan] at hrs
        simp only [initState] at hrs
        rw [show (5 : Nat) = 4 + 1 from rfl, loop_succ] at hrs
        cases ham : applyMemoryToQuestion goal memory with
        | error e =>
          have hca : chooseAction goal memory
              ⟨.sql, sqlSteps, [],
                { memory_updates := guessPreferences (lowerStr goal) memory }, 0⟩ =
              .error e := by
            simp [chooseAction, scanSteps, sqlSteps, ham]
          rw [hca] at hrs
          cases hrs
        | ok q =>
          have hca : chooseAction goal memory
              ⟨.sql, sqlSteps, [],
                { memory_updates := guessPreferences (lowerStr goal) memory }, 0⟩ =
              .ok (some ⟨"sql_generate", .sqlGenerate q, 0⟩) := by
            simp [chooseAction, scanSteps, sqlSteps, ham]
          rw [hca] at hrs
          dsimp only at hrs
          cases hregG : env.registered "sql_generate" with
          | false =>
            have hbody : loopBody env
                { plan := ⟨.sql, sqlSteps, [],
                    { memory_updates := guessPreferences (lowerStr goal) memory }, 0⟩ }
                ⟨"sql_generate", .sqlGenerate q, 0⟩ =
                { plan := ⟨.sql,
                    [⟨"sql_generate", .completed⟩, ⟨"sql_run", .pending⟩,
                      ⟨"verbalize", .pending⟩], [],
                    { error := some ("Tool " ++ apos ++ "sql_generate" ++ apos ++
                        " is not registered."),
                      memory_updates := guessPreferences (lowerStr goal) memory }, 0⟩,
                  lastResult := some { error := some ("Tool " ++ apos ++
                    "sql_generate" ++ apos ++ " is not registered.") },
                  stepIndex := some 0,
                  trace := [⟨"sql_generate", .sqlGenerate q, false⟩],
                  toolOrder := ["sql_generate"],
                  hist := [⟨0, "sql_generate", false, 0⟩] } := by
              simp [loopBody, callResult, hregG, reflect, setStatus, sqlSteps]
            rw [hbody] at hrs
            rw [show shouldStop (⟨.sql,
                [⟨"sql_generate", .completed⟩, ⟨"sql_run", .pending⟩,
                  ⟨"verbalize", .pending⟩], [],
                { error := some ("Tool " ++ apos ++ "sql_generate" ++ apos ++
                    " is not registered."),
                  memory_updates := guessPreferences (lowerStr goal) memory }, 0⟩ : Plan) =
                true from by simp [shouldStop, strOptTruthy]; decide] at hrs
            rw [if_pos rfl] at hrs
            injection hrs with hrs
            subst hrs
            simp at ht1
          | true =>
            cases hxe : (env.respond 0).error with
            | some e =>
              have hbody : loopBody env
                  { plan := ⟨.sql, sqlSteps, [],
                      { memory_updates := guessPreferences (lowerStr goal) memory }, 0⟩ }
                  ⟨"sql_generate", .sqlGenerate q, 0⟩ =
                  { plan := ⟨.sql,
                      [⟨"sql_generate", .completed⟩, ⟨"sql_run", .pending⟩,
                        ⟨"verbalize", .pending⟩], [],
                      { error := some e,
                        memory_updates := guessPreferences (lowerStr goal) memory }, 0⟩,
                    lastResult := some (env.respond 0),
                    stepIndex := some 0,
                    trace := [⟨"sql_generate", .sqlGenerate q, false⟩],
                    toolOrder := ["sql_generate"],
                    hist := [⟨0, "sql_generate", false, 0⟩] } := by
                simp [loopBody, callResult, hregG, reflect, setStatus, sqlSteps, hxe]
              rw [hbody] at hrs
              by_cases he : e = ""
              · subst he
                rw [show shouldStop (⟨.sql,
                    [⟨"sql_generate", .completed⟩, ⟨"sql_run", .pending⟩,
                      ⟨"verbalize", .pending⟩], [],
                    { error := some "",
                      memory_updates := guessPreferences (lowerStr goal) memory }, 0⟩ : Plan) =
                    false from by simp [shouldStop, strOptTruthy]] at hrs
                rw [if_neg (by simp)] at hrs
                rw [show (4 : Nat) = 3 + 1 from rfl, loop_succ] at hrs
                have hca2 : chooseAction goal memory
                    (⟨.sql, [⟨"sql_generate", .completed⟩, ⟨"sql_run", .pending⟩,
                      ⟨"verbalize", .pending⟩], [],
                      { error := some "",
                        memory_updates := guessPreferences (lowerStr goal) memory }, 0⟩ : Plan) =
                    .ok none := by
                  simp [chooseAction, scanSteps]
                rw [hca2] at hrs
                injection hrs with hrs
                subst hrs
                simp at ht1
              · rw [show shouldStop (⟨.sql,
                    [⟨"sql_generate", .completed⟩, ⟨"sql_run", .pending⟩,
                      ⟨"verbalize", .pending⟩], [],
                    { error := some e,
                      memory_updates := guessPreferences (lowerStr goal) memory }, 0⟩ : Plan) =
                    true from by simp [shouldStop, strOptTruthy, he]] at hrs
                rw [if_pos rfl] at hrs
                injection hrs with hrs
                subst hrs
                simp at ht1
            | none =>
              cases hex : extractSql (env.respond 0).sql_wrapped with
              | none =>
                have hbody : loopBody env
                    { plan := ⟨.sql, sqlSteps, [],
                        { memory_updates := guessPreferences (lowerStr goal) memory }, 0⟩ }
                    ⟨"sql_generate", .sqlGenerate q, 0⟩ =
                    { plan := ⟨.sql,
                        [⟨"sql_generate", .completed⟩, ⟨"sql_run", .pending⟩,
                          ⟨"verbalize", .pending⟩], [],
                        { sql_wrapped := some (env.respond 0).sql_wrapped,
                          sql_query := none,
                          error := some invalidSqlMsg,
                          memory_updates := guessPreferences (lowerStr goal) memory }, 0⟩,
                      lastResult := some (env.respond 0),
                      stepIndex := some 0,
                      trace := [⟨"sql_generate", .sqlGenerate q, true⟩],
                      toolOrder := ["sql_generate"],
                      hist := [⟨0, "sql_generate", false, 0⟩] } := by
                  simp [loopBody, callResult, hregG, reflect, setStatus, sqlSteps,
                    hxe, hex, strOptTruthy]
                rw [hbody] at hrs
                rw [show shouldStop (⟨.sql,
                    [⟨"sql_generate", .completed⟩, ⟨"sql_run", .pending⟩,
                      ⟨"verbalize", .pending⟩], [],
                    { sql_wrapped := some (env.respond 0).sql_wrapped,
                      sql_query := none,
                      error := some invalidSqlMsg,
                      memory_updates := guessPreferences (lowerStr goal) memory }, 0⟩ : Plan) =
                    true from by simp [shouldStop, strOptTruthy, invalidSqlMsg]] at hrs
                rw [if_pos rfl] at hrs
                injection hrs with hrs
                subst hrs
                simp at ht1
              | some s =>
                by_cases hs : s = ""
                · subst hs
                  have hbody : loopBody env
                      { plan := ⟨.sql, sqlSteps, [],
                          { memory_updates := guessPreferences (lowerStr goal) memory }, 0⟩ }
                      ⟨"sql_generate", .sqlGenerate q, 0⟩ =
                      { plan := ⟨.sql,
                          [⟨"sql_generate", .completed⟩, ⟨"sql_run", .pending⟩,
                            ⟨"verbalize", .pending⟩], [],
                          { sql_wrapped := some (env.respond 0).sql_wrapped,
                            sql_query := some "",
                            error := some invalidSqlMsg,
                            memory_updates := guessPreferences (lowerStr goal) memory }, 0⟩,
                        lastResult := some (env.respond 0),
                        stepIndex := some 0,
                        trace := [⟨"sql_generate", .sqlGenerate q, true⟩],
                        toolOrder := ["sql_generate"],
                        hist := [⟨0, "sql_generate", false, 0⟩] } := by
                    simp [loopBody, callResult, hregG, reflect, setStatus, sqlSteps,
                      hxe, hex, strOptTruthy]
                  rw [hbody] at hrs
                  rw [show shouldStop (⟨.sql,
                      [⟨"sql_generate", .completed⟩, ⟨"sql_run", .pending⟩,
                        ⟨"verbalize", .pending⟩], [],
                      { sql_wrapped := some (env.respond 0).sql_wrapped,
                        sql_query := some "",
                        error := some invalidSqlMsg,
                        memory_updates := guessPreferences (lowerStr goal) memory }, 0⟩ : Plan) =
                      true from by simp [shouldStop, strOptTruthy, invalidSqlMsg]] at hrs
                  rw [if_pos rfl] at hrs
                  injection hrs with hrs
                  subst hrs
                  simp at ht1
                · have hbody : loopBody env
                      { plan := ⟨.sql, sqlSteps, [],
                          { memory_updates := guessPreferences (lowerStr goal) memory }, 0⟩ }
                      ⟨"sql_generate", .sqlGenerate q, 0⟩ =
                      { plan := ⟨.sql,
                          [⟨"sql_generate", .completed⟩, ⟨"sql_run", .pending⟩,
                            ⟨"verbalize", .pending⟩], [],
                          { sql_wrapped := some (env.respond 0).sql_wrapped,
                            sql_query := some s,
                            memory_updates := guessPreferences (lowerStr goal) memory }, 0⟩,
                        lastResult := some (env.respond 0),
                        stepIndex := some 0,
                        trace := [⟨"sql_generate", .sqlGenerate q, true⟩],
                        toolOrder := ["sql_generate"],
                        hist := [⟨0, "sql_generate", false, 0⟩] } := by
                    simp [loopBody, callResult, hregG, reflect, setStatus, sqlSteps,
                      hxe, hex, strOptTruthy, hs]
                  rw [hbody] at hrs
                  rw [show shouldStop (⟨.sql,
                      [⟨"sql_generate", .completed⟩, ⟨"sql_run", .pending⟩,
                        ⟨"verbalize", .pending⟩], [],
                      { sql_wrapped := some (env.respond 0).sql_wrapped,
                        sql_query := some s,
                        memory_updates := guessPreferences (lowerStr goal) memory }, 0⟩ : Plan) =
                      false from by simp [shouldStop, strOptTruthy]] at hrs
                  rw [if_neg (by simp)] at hrs
                  rw [show (4 : Nat) = 3 + 1 from rfl, loop_succ] at hrs
                  have hca2 : chooseAction goal memory
                      (⟨.sql, [⟨"sql_generate", .completed⟩, ⟨"sql_run", .pending⟩,
                        ⟨"verbalize", .pending⟩], [],
                        { sql_wrapped := some (env.respond 0).sql_wrapped,
                          sql_query := some s,
                          memory_updates := guessPreferences (lowerStr goal) memory }, 0⟩ : Plan) =
                      .ok (some ⟨"sql_run", .sqlRun s, 1⟩) := by
                    simp [chooseAction, scanSteps, hs]
                  rw [hca2] at hrs
                  dsimp only at hrs
                  have hbody2 : loopBody env
                      { plan := ⟨.sql, [⟨"sql_generate", .completed⟩, ⟨"sql_run", .pending⟩,
                          ⟨"verbalize", .pending⟩], [],
                          { sql_wrapped := some (env.respond 0).sql_wrapped,
                            sql_query := some s,
                            memory_updates := guessPreferences (lowerStr goal) memory }, 0⟩,
                        lastResult := some (env.respond 0),
                        stepIndex := some 0,
                        trace := [⟨"sql_generate", .sqlGenerate q, true⟩],
                        toolOrder := ["sql_generate"],
                        hist := [⟨0, "sql_generate", false, 0⟩] }
                      ⟨"sql_run", .sqlRun s, 1⟩ =
                      { plan := ⟨.sql, [⟨"sql_generate", .completed⟩, ⟨"sql_run", .completed⟩,
                          ⟨"verbalize", .pending⟩], [],
                          { sql_wrapped := some (env.respond 0).sql_wrapped,
                            sql_query := some s,
                            error := some M,
                            memory_updates := guessPreferences (lowerStr goal) memory }, 0⟩,
                        lastResult := some (callResult env 1 "sql_run"),
                        stepIndex := some 1,
                        trace := [⟨"sql_generate", .sqlGenerate q, true⟩,
                          ⟨"sql_run", .sqlRun s, false⟩],
                        toolOrder := ["sql_generate", "sql_run"],
                        hist := [⟨0, "sql_generate", false, 0⟩, ⟨1, "sql_run", false, 0⟩] } := by
                    simp [loopBody, reflect, setStatus, herr]
                  rw [hbody2] at hrs
                  rw [show shouldStop (⟨.sql, [⟨"sql_generate", .completed⟩,
                      ⟨"sql_run", .completed⟩, ⟨"verbalize", .pending⟩], [],
                      { sql_wrapped := some (env.respond 0).sql_wrapped,
                        sql_query := some s,
                        error := some M,
                        memory_updates := guessPreferences (lowerStr goal) memory }, 0⟩ : Plan) =
                      true from by simp [shouldStop, strOptTruthy, hM]] at hrs
                  rw [if_pos rfl] at hrs
                  injection hrs with hrs
                  subst hrs
                  refine ⟨by simp, by simp, ?_⟩
                  rw [resolvedText_error _ (by simp [strOptTruthy, hM])]
                  simp only [Option.getD_some]
                  rw [String.append_assoc ("Sorry, something went wrong: " ++ M) "\n"
                    (formatTrace ["sql_generate", "sql_run"])]
                  exact strIn_sandwich M "Sorry, something went wrong: "
                    ("\n" ++ formatTrace ["sql_generate", "sql_run"])


/-- C7 witness: a first-invocation `sql_run` fault with the blocked-query
message yields a two-entry trace and surfaces the message. -/
theorem c7_error_short_circuit_witness :
    (runOr envFirstFail goalRefine {}).trace.length = 2 ∧
    ((runOr envFirstFail goalRefine {}).trace.map TraceRec.ok)[1]? =
      some false ∧
    strIn "Only SELECT statements are allowed."
      (runOr envFirstFail goalRefine {}).text = true :=
  c7_error_short_circuit envFirstFail goalRefine {}
    (runOr envFirstFail goalRefine {}) "Only SELECT statements are allowed."
    rfl rfl rfl (by decide)

/-! ## Claim C1: main theorem -/

/-- C1: on every DATA_QUERY turn that passes the clarification check (and
returns), `sql_run` is invoked at most twice; and whenever the turn holds
exactly two `sql_run` invocations, each answered with an empty row list and
no tool error, the resolved final text is `No matches.` followed by the
trace line, and the invoked tools are exactly
`sql_generate -> sql_run -> sql_generate -> sql_run`. -/
theorem c1_refinement_bound (env : Env) (goal : String) (memory : Memory)
    (r : RunResult)
    (h : runE env goal memory = .ok r)
    (ht : (makeInitialPlan goal memory).type = .sql)
    (hcl : (makeInitialPlan goal memory).needs_clarification = []) :
    (r.trace.map TraceRec.tool).count "sql_run" ≤ 2 ∧
    (((r.trace.map TraceRec.tool).count "sql_run" = 2 ∧
      ∀ (k : Nat), (r.trace.map TraceRec.tool)[k]? = some "sql_run" →
        env.registered "sql_run" = true ∧ (env.respond k).error = none ∧
        (env.respond k).rows = []) →
      r.trace.map TraceRec.tool =
        ["sql_generate", "sql_run", "sql_generate", "sql_run"] ∧
      r.text = "No matches.\nTrace: sql_generate -> sql_run -> sql_generate -> sql_run")
    := by
  have hclass : classify goal = .sql := ht
  unfold runE at h
  rw [if_pos (by rw [hcl]; rfl)] at h
  cases hrs : runStateE env goal memory with
  | error e => rw [hrs] at h; cases h
  | ok stF =>
    rw [hrs] at h
    injection h with h
    subst h
    simp only [finalize]
    unfold runStateE maxSteps at hrs
    have hnc : missingConstraints (lowerStr goal) memory = [] := by
      have h0 : (makeInitialPlan goal memory).needs_clarification =
          missingConstraints (lowerStr goal) memory := by
        unfold makeInitialPlan
        rw [hclass]
      rw [← h0, hcl]
    have hplan : makeInitialPlan goal memory =
        ⟨.sql, sqlSteps, [],
          { memory_updates := guessPreferences (lowerStr goal) memory }, 0⟩ := by
      simp [makeInitialPlan, hclass, hnc]
    rw [hplan] at hrs
    constructor
    · exact loop_sql_run_bound 5 _ stF hrs rfl (by show (0:Nat) ≤ 1; omega)
        (by simp [initState, pendBonus, sqlSteps]) rfl
    · intro ⟨hcnt, hok⟩
      simp only [initState] at hrs
      rw [show (5 : Nat) = 4 + 1 from rfl, loop_succ] at hrs
      cases ham : applyMemoryToQuestion goal memory with
      | error e =>
        have hca : chooseAction goal memory
            ⟨.sql, sqlSteps, [],
              { memory_updates := guessPreferences (lowerStr goal) memory }, 0⟩ =
            .error e := by
          simp [chooseAction, scanSteps, sqlSteps, ham]
        rw [hca] at hrs
        cases hrs
      | ok q =>
        have hca : chooseAction goal memory
            ⟨.sql, sqlSteps, [],
              { memory_updates := guessPreferences (lowerStr goal) memory }, 0⟩ =
            .ok (some ⟨"sql_generate", .sqlGenerate q, 0⟩) := by
          simp [chooseAction, scanSteps, sqlSteps, ham]
        rw [hca] at hrs
        dsimp only at hrs
        cases hregG : env.registered "sql_generate" with
        | false =>
          have hbody : loopBody env
              { plan := ⟨.sql, sqlSteps, [],
                  { memory_updates := guessPreferences (lowerStr goal) memory }, 0⟩ }
              ⟨"sql_generate", .sqlGenerate q, 0⟩ =
              { plan := ⟨.sql,
                  [⟨"sql_generate", .completed⟩, ⟨"sql_run", .pending⟩,
                    ⟨"verbalize", .pending⟩], [],
                  { error := some ("Tool " ++ apos ++ "sql_generate" ++ apos ++
                      " is not registered."),
                    memory_updates := guessPreferences (lowerStr goal) memory }, 0⟩,
                lastResult := some { error := some ("Tool " ++ apos ++
                  "sql_generate" ++ apos ++ " is not registered.") },
                stepIndex := some 0,
                trace := [⟨"sql_generate", .sqlGenerate q, false⟩],
                toolOrder := ["sql_generate"],
                hist := [⟨0, "sql_generate", false, 0⟩] } := by
            simp [loopBody, callResult, hregG, reflect, setStatus, sqlSteps]
          rw [hbody] at hrs
          rw [show shouldStop (⟨.sql,
              [⟨"sql_generate", .completed⟩, ⟨"sql_run", .pending⟩,
                ⟨"verbalize", .pending⟩], [],
              { error := some ("Tool " ++ apos ++ "sql_generate" ++ apos ++
                  " is not registered."),
                memory_updates := guessPreferences (lowerStr goal) memory }, 0⟩ : Plan) =
              true from by simp [shouldStop, strOptTruthy]; decide] at hrs
          rw [if_pos rfl] at hrs
          injection hrs with hrs
          subst hrs
          simp at hcnt
        | true =>
          cases hxe : (env.respond 0).error with
          | some e =>
            have hbody : loopBody env
                { plan := ⟨.sql, sqlSteps, [],
                    { memory_updates := guessPreferences (lowerStr goal) memory }, 0⟩ }
                ⟨"sql_generate", .sqlGenerate q, 0⟩ =
                { plan := ⟨.sql,
                    [⟨"sql_generate", .completed⟩, ⟨"sql_run", .pending⟩,
                      ⟨"verbalize", .pending⟩], [],
                    { error := some e,
                      memory_updates := guessPreferences (lowerStr goal) memory }, 0⟩,
                  lastResult := some (env.respond 0),
                  stepIndex := some 0,
                  trace := [⟨"sql_generate", .sqlGenerate q, false⟩],
                  toolOrder := ["sql_generate"],
                  hist := [⟨0, "sql_generate", false, 0⟩] } := by
              simp [loopBody, callResult, hregG, reflect, setStatus, sqlSteps, hxe]
            rw [hbody] at hrs
            by_cases he : e = ""
            · subst he
              rw [show shouldStop (⟨.sql,
                  [⟨"sql_generate", .completed⟩, ⟨"sql_run", .pending⟩,
                    ⟨"verbalize", .pending⟩], [],
                  { error := some "",
                    memory_updates := guessPreferences (lowerStr goal) memory }, 0⟩ : Plan) =
                  false from by simp [shouldStop, strOptTruthy]] at hrs
              rw [if_neg (by simp)] at hrs
              rw [show (4 : Nat) = 3 + 1 from rfl, loop_succ] at hrs
              have hca2 : chooseAction goal memory
                  (⟨.sql, [⟨"sql_generate", .completed⟩, ⟨"sql_run", .pending⟩,
                    ⟨"verbalize", .pending⟩], [],
                    { error := some "",
                      memory_updates := guessPreferences (lowerStr goal) memory }, 0⟩ : Plan) =
                  .ok none := by
                simp [chooseAction, scanSteps]
              rw [hca2] at hrs
              injection hrs with hrs
              subst hrs
              simp at hcnt
            · rw [show shouldStop (⟨.sql,
                  [⟨"sql_generate", .completed⟩, ⟨"sql_run", .pending⟩,
                    ⟨"verbalize", .pending⟩], [],
                  { error := some e,
                    memory_updates := guessPreferences (lowerStr goal) memory }, 0⟩ : Plan) =
                  true from by simp [shouldStop, strOptTruthy, he]] at hrs
              rw [if_pos rfl] at hrs
              injection hrs with hrs
              subst hrs
              simp at hcnt
          | none =>
            cases hex : extractSql (env.respond 0).sql_wrapped with
            | none =>
              have hbody : loopBody env
                  { plan := ⟨.sql, sqlSteps, [],
                      { memory_updates := guessPreferences (lowerStr goal) memory }, 0⟩ }
                  ⟨"sql_generate", .sqlGenerate q, 0⟩ =
                  { plan := ⟨.sql,
                      [⟨"sql_generate", .completed⟩, ⟨"sql_run", .pending⟩,
                        ⟨"verbalize", .pending⟩], [],
                      { sql_wrapped := some (env.respond 0).sql_wrapped,
                        sql_query := none,
                        error := some invalidSqlMsg,
                        memory_updates := guessPreferences (lowerStr goal) memory }, 0⟩,
                    lastResult := some (env.respond 0),
                    stepIndex := some 0,
                    trace := [⟨"sql_generate", .sqlGenerate q, true⟩],
                    toolOrder := ["sql_generate"],
                    hist := [⟨0, "sql_generate", false, 0⟩] } := by
                simp [loopBody, callResult, hregG, reflect, setStatus, sqlSteps,
                  hxe, hex, strOptTruthy]
              rw [hbody] at hrs
              rw [show shouldStop (⟨.sql,
                  [⟨"sql_generate", .completed⟩, ⟨"sql_run", .pending⟩,
                    ⟨"verbalize", .pending⟩], [],
                  { sql_wrapped := some (env.respond 0).sql_wrapped,
                    sql_query := none,
                    error := some invalidSqlMsg,
                    memory_updates := guessPreferences (lowerStr goal) memory }, 0⟩ : Plan) =
                  true from by simp [shouldStop, strOptTruthy, invalidSqlMsg]] at hrs
              rw [if_pos rfl] at hrs
              injection hrs with hrs
              subst hrs
              simp at hcnt
            | some s =>
              by_cases hs : s = ""
              · subst hs
                have hbody : loopBody env
                    { plan := ⟨.sql, sqlSteps, [],
                        { memory_updates := guessPreferences (lowerStr goal) memory }, 0⟩ }
                    ⟨"sql_generate", .sqlGenerate q, 0⟩ =
                    { plan := ⟨.sql,
                        [⟨"sql_generate", .completed⟩, ⟨"sql_run", .pending⟩,
                          ⟨"verbalize", .pending⟩], [],
                        { sql_wrapped := some (env.respond 0).sql_wrapped,
                          sql_query := some "",
                          error := some invalidSqlMsg,
                          memory_updates := guessPreferences (lowerStr goal) memory }, 0⟩,
                      lastResult := some (env.respond 0),
                      stepIndex := some 0,
                      trace := [⟨"sql_generate", .sqlGenerate q, true⟩],
                      toolOrder := ["sql_generate"],
                      hist := [⟨0, "sql_generate", false, 0⟩] } := by
                  simp [loopBody, callResult, hregG, reflect, setStatus, sqlSteps,
                    hxe, hex, strOptTruthy]
                rw [hbody] at hrs
                rw [show shouldStop (⟨.sql,
                    [⟨"sql_generate", .completed⟩, ⟨"sql_run", .pending⟩,
                      ⟨"verbalize", .pending⟩], [],
                    { sql_wrapped := some (env.respond 0).sql_wrapped,
                      sql_query := some "",
                      error := some invalidSqlMsg,
                      memory_updates := guessPreferences (lowerStr goal) memory }, 0⟩ : Plan) =
                    true from by simp [shouldStop, strOptTruthy, invalidSqlMsg]] at hrs
                rw [if_pos rfl] at hrs
                injection hrs with hrs
                subst hrs
                simp at hcnt
              · have hbody : loopBody env
                    { plan := ⟨.sql, sqlSteps, [],
                        { memory_updates := guessPreferences (lowerStr goal) memory }, 0⟩ }
                    ⟨"sql_generate", .sqlGenerate q, 0⟩ =
                    { plan := ⟨.sql,
                        [⟨"sql_generate", .completed⟩, ⟨"sql_run", .pending⟩,
                          ⟨"verbalize", .pending⟩], [],
                        { sql_wrapped := some (env.respond 0).sql_wrapped,
                          sql_query := some s,
                          memory_updates := guessPreferences (lowerStr goal) memory }, 0⟩,
                      lastResult := some (env.respond 0),
                      stepIndex := some 0,
                      trace := [⟨"sql_generate", .sqlGenerate q, true⟩],
                      toolOrder := ["sql_generate"],
                      hist := [⟨0, "sql_generate", false, 0⟩] } := by
                  simp [loopBody, callResult, hregG, reflect, setStatus, sqlSteps,
                    hxe, hex, strOptTruthy, hs]
                rw [hbody] at hrs
                rw [show shouldStop (⟨.sql,
                    [⟨"sql_generate", .completed⟩, ⟨"sql_run", .pending⟩,
                      ⟨"verbalize", .pending⟩], [],
                    { sql_wrapped := some (env.respond 0).sql_wrapped,
                      sql_query := some s,
                      memory_updates := guessPreferences (lowerStr goal) memory }, 0⟩ : Plan) =
                    false from by simp [shouldStop, strOptTruthy]] at hrs
                rw [if_neg (by simp)] at hrs
                rw [show (4 : Nat) = 3 + 1 from rfl, loop_succ] at hrs
                have hca2 : chooseAction goal memory
                    (⟨.sql, [⟨"sql_generate", .completed⟩, ⟨"sql_run", .pending⟩,
                      ⟨"verbalize", .pending⟩], [],
                      { sql_wrapped := some (env.respond 0).sql_wrapped,
                        sql_query := some s,
                        memory_updates := guessPreferences (lowerStr goal) memory }, 0⟩ : Plan) =
                    .ok (some ⟨"sql_run", .sqlRun s, 1⟩) := by
                  simp [chooseAction, scanSteps, hs]
                rw [hca2] at hrs
                dsimp only at hrs
                have hfin1 : (stF.trace.map TraceRec.tool)[1]? = some "sql_run" := by
                  rw [List.getElem?_map]
                  by_cases hss : shouldStop (loopBody env
                    { plan := ⟨.sql, [⟨"sql_generate", .completed⟩,
                        ⟨"sql_run", .pending⟩, ⟨"verbalize", .pending⟩], [],
                        { sql_wrapped := some (env.respond 0).sql_wrapped,
                          sql_query := some s,
                          memory_updates := guessPreferences (lowerStr goal) memory }, 0⟩,
                      lastResult := some (env.respond 0),
                      stepIndex := some 0,
                      trace := [⟨"sql_generate", .sqlGenerate q, true⟩],
                      toolOrder := ["sql_generate"],
                      hist := [⟨0, "sql_generate", false, 0⟩] }
                    ⟨"sql_run", .sqlRun s, 1⟩).plan
                  · rw [if_pos hss] at hrs
                    injection hrs with hrs
                    subst hrs
                    simp [loopBody]
                  · rw [if_neg hss] at hrs
                    have hstab := loop_trace_stable 3 _ _ 1 hrs
                      (by simp [loopBody])
                    rw [hstab]
                    simp [loopBody]
                obtain ⟨hreg1, herr1, hrows1⟩ := hok 1 hfin1
                have hbody2 : loopBody env
                    { plan := ⟨.sql, [⟨"sql_generate", .completed⟩,
                        ⟨"sql_run", .pending⟩, ⟨"verbalize", .pending⟩], [],
                        { sql_wrapped := some (env.respond 0).sql_wrapped,
                          sql_query := some s,
                          memory_updates := guessPreferences (lowerStr goal) memory }, 0⟩,
                      lastResult := some (env.respond 0),
                      stepIndex := some 0,
                      trace := [⟨"sql_generate", .sqlGenerate q, true⟩],
                      toolOrder := ["sql_generate"],
                      hist := [⟨0, "sql_generate", false, 0⟩] }
                    ⟨"sql_run", .sqlRun s, 1⟩ =
                    { plan := ⟨.sql, [⟨"sql_generate", .pending⟩,
                        ⟨"sql_run", .pending⟩, ⟨"verbalize", .pending⟩], [],
                        { sql_wrapped := some (env.respond 0).sql_wrapped,
                          columns := some (env.respond 1).columns,
                          refine_hint := true,
                          memory_updates := guessPreferences (lowerStr goal) memory }, 1⟩,
                      lastResult := some (env.respond 1),
                      stepIndex := some 1,
                      trace := [⟨"sql_generate", .sqlGenerate q, true⟩,
                        ⟨"sql_run", .sqlRun s, true⟩],
                      toolOrder := ["sql_generate", "sql_run"],
                      hist := [⟨0, "sql_generate", false, 0⟩,
                        ⟨1, "sql_run", true, 1⟩] } := by
                  simp [loopBody, callResult, hreg1, reflect, setStatus,
                    resetSqlSteps, herr1, hrows1]
                rw [hbody2] at hrs
                rw [show shouldStop (⟨.sql, [⟨"sql_generate", .pending⟩,
                    ⟨"sql_run", .pending⟩, ⟨"verbalize", .pending⟩], [],
                    { sql_wrapped := some (env.respond 0).sql_wrapped,
                      columns := some (env.respond 1).columns,
                      refine_hint := true,
                      memory_updates := guessPreferences (lowerStr goal) memory }, 1⟩ : Plan) =
                    false from by simp [shouldStop, strOptTruthy]] at hrs
                rw [if_neg (by simp)] at hrs
                rw [show (3 : Nat) = 2 + 1 from rfl, loop_succ] at hrs
                have hca3 : chooseAction goal memory
                    (⟨.sql, [⟨"sql_generate", .pending⟩,
                      ⟨"sql_run", .pending⟩, ⟨"verbalize", .pending⟩], [],
                      { sql_wrapped := some (env.respond 0).sql_wrapped,
                        columns := some (env.respond 1).columns,
                        refine_hint := true,
                        memory_updates := guessPreferences (lowerStr goal) memory }, 1⟩ : Plan) =
                    .ok (some ⟨"sql_generate",
                      .sqlGenerate (q ++ refineSuffix), 0⟩) := by
                  simp [chooseAction, scanSteps, ham]
                rw [hca3] at hrs
                dsimp only at hrs
                cases hxe2 : (env.respond 2).error with
                | some e2 =>
                  have hbody3 : loopBody env
                      { plan := ⟨.sql, [⟨"sql_generate", .pending⟩,
                          ⟨"sql_run", .pending⟩, ⟨"verbalize", .pending⟩], [],
                          { sql_wrapped := some (env.respond 0).sql_wrapped,
                            columns := some (env.respond 1).columns,
                            refine_hint := true,
                            memory_updates := guessPreferences (lowerStr goal) memory }, 1⟩,
                        lastResult := some (env.respond 1),
                        stepIndex := some 1,
                        trace := [⟨"sql_generate", .sqlGenerate q, true⟩,
                          ⟨"sql_run", .sqlRun s, true⟩],
                        toolOrder := ["sql_generate", "sql_run"],
                        hist := [⟨0, "sql_generate", false, 0⟩,
                          ⟨1, "sql_run", true, 1⟩] }
                      ⟨"sql_generate", .sqlGenerate (q ++ refineSuffix), 0⟩ =
                      { plan := ⟨.sql, [⟨"sql_generate", .completed⟩,
                          ⟨"sql_run", .pending⟩, ⟨"verbalize", .pending⟩], [],
                          { sql_wrapped := some (env.respond 0).sql_wrapped,
                            columns := some (env.respond 1).columns,
                            refine_hint := true,
                            error := some e2,
                            memory_updates := guessPreferences (lowerStr goal) memory }, 1⟩,
                        lastResult := some (env.respond 2),
                        stepIndex := some 0,
                        trace := [⟨"sql_generate", .sqlGenerate q, true⟩,
                          ⟨"sql_run", .sqlRun s, true⟩,
                          ⟨"sql_generate", .sqlGenerate (q ++ refineSuffix), false⟩],
                        toolOrder := ["sql_generate", "sql_run", "sql_generate"],
                        hist := [⟨0, "sql_generate", false, 0⟩,
                          ⟨1, "sql_run", true, 1⟩,
                          ⟨0, "sql_generate", false, 1⟩] } := by
                    simp [loopBody, callResult, hregG, reflect, setStatus, hxe2]
                  rw [hbody3] at hrs
                  by_cases he2 : e2 = ""
                  · subst he2
                    rw [show shouldStop (⟨.sql, [⟨"sql_generate", .completed⟩,
                        ⟨"sql_run", .pending⟩, ⟨"verbalize", .pending⟩], [],
                        { sql_wrapped := some (env.respond 0).sql_wrapped,
                          columns := some (env.respond 1).columns,
                          refine_hint := true,
                          error := some "",
                          memory_updates := guessPreferences (lowerStr goal) memory }, 1⟩ : Plan) =
                        false from by simp [shouldStop, strOptTruthy]] at hrs
                    rw [if_neg (by simp)] at hrs
                    rw [show (2 : Nat) = 1 + 1 from rfl, loop_succ] at hrs
                    have hca4 : chooseAction goal memory
                        (⟨.sql, [⟨"sql_generate", .completed⟩,
                          ⟨"sql_run", .pending⟩, ⟨"verbalize", .pending⟩], [],
                          { sql_wrapped := some (env.respond 0).sql_wrapped,
                            columns := some (env.respond 1).columns,
                            refine_hint := true,
                            error := some "",
                            memory_updates := guessPreferences (lowerStr goal) memory }, 1⟩ : Plan) =
                        .ok none := by
                      simp [chooseAction, scanSteps]
                    rw [hca4] at hrs
                    injection hrs with hrs
                    subst hrs
                    simp at hcnt
                  · rw [show shouldStop (⟨.sql, [⟨"sql_generate", .completed⟩,
                        ⟨"sql_run", .pending⟩, ⟨"verbalize", .pending⟩], [],
                        { sql_wrapped := some (env.respond 0).sql_wrapped,
                          columns := some (env.respond 1).columns,
                          refine_hint := true,
                          error := some e2,
                          memory_updates := guessPreferences (lowerStr goal) memory }, 1⟩ : Plan) =
                        true from by simp [shouldStop, strOptTruthy, he2]] at hrs
                    rw [if_pos rfl] at hrs
                    injection hrs with hrs
                    subst hrs
                    simp at hcnt
                | none =>
                  cases hex2 : extractSql (env.respond 2).sql_wrapped with
                  | none =>
                    have hbody3 : loopBody env
                        { plan := ⟨.sql, [⟨"sql_generate", .pending⟩,
                            ⟨"sql_run", .pending⟩, ⟨"verbalize", .pending⟩], [],
                            { sql_wrapped := some (env.respond 0).sql_wrapped,
                              columns := some (env.respond 1).columns,
                              refine_hint := true,
                              memory_updates := guessPreferences (lowerStr goal) memory }, 1⟩,
                          lastResult := some (env.respond 1),
                          stepIndex := some 1,
                          trace := [⟨"sql_generate", .sqlGenerate q, true⟩,
                            ⟨"sql_run", .sqlRun s, true⟩],
                          toolOrder := ["sql_generate", "sql_run"],
                          hist := [⟨0, "sql_generate", false, 0⟩,
                            ⟨1, "sql_run", true, 1⟩] }
                        ⟨"sql_generate", .sqlGenerate (q ++ refineSuffix), 0⟩ =
                        { plan := ⟨.sql, [⟨"sql_generate", .completed⟩,
                            ⟨"sql_run", .pending⟩, ⟨"verbalize", .pending⟩], [],
                            { sql_wrapped := some (env.respond 2).sql_wrapped,
                              sql_query := none,
                              columns := some (env.respond 1).columns,
                              refine_hint := true,
                              error := some invalidSqlMsg,
                              memory_updates := guessPreferences (lowerStr goal) memory }, 1⟩,
                          lastResult := some (env.respond 2),
                          stepIndex := some 0,
                          trace := [⟨"sql_generate", .sqlGenerate q, true⟩,
                            ⟨"sql_run", .sqlRun s, true⟩,
                            ⟨"sql_generate", .sqlGenerate (q ++ refineSuffix), true⟩],
                          toolOrder := ["sql_generate", "sql_run", "sql_generate"],
                          hist := [⟨0, "sql_generate", false, 0⟩,
                            ⟨1, "sql_run", true, 1⟩,
                            ⟨0, "sql_generate", false, 1⟩] } := by
                      simp [loopBody, callResult, hregG, reflect, setStatus,
                        hxe2, hex2, strOptTruthy]
                    rw [hbody3] at hrs
                    rw [show shouldStop (⟨.sql, [⟨"sql_generate", .completed⟩,
                        ⟨"sql_run", .pending⟩, ⟨"verbalize", .pending⟩], [],
                        { sql_wrapped := some (env.respond 2).sql_wrapped,
                          sql_query := none,
                          columns := some (env.respond 1).columns,
                          refine_hint := true,
                          error := some invalidSqlMsg,
                          memory_updates := guessPreferences (lowerStr goal) memory }, 1⟩ : Plan) =
                        true from by simp [shouldStop, strOptTruthy, invalidSqlMsg]] at hrs
                    rw [if_pos rfl] at hrs
                    injection hrs with hrs
                    subst hrs
                    simp at hcnt
                  | some s2 =>
                    by_cases hs2 : s2 = ""
                    · subst hs2
                      have hbody3 : loopBody env
                          { plan := ⟨.sql, [⟨"sql_generate", .pending⟩,
                              ⟨"sql_run", .pending⟩, ⟨"verbalize", .pending⟩], [],
                              { sql_wrapped := some (env.respond 0).sql_wrapped,
                                columns := some (env.respond 1).columns,
                                refine_hint := true,
                                memory_updates := guessPreferences (lowerStr goal) memory }, 1⟩,
                            lastResult := some (env.respond 1),
                            stepIndex := some 1,
                            trace := [⟨"sql_generate", .sqlGenerate q, true⟩,
                              ⟨"sql_run", .sqlRun s, true⟩],
                            toolOrder := ["sql_generate", "sql_run"],
                            hist := [⟨0, "sql_generate", false, 0⟩,
                              ⟨1, "sql_run", true, 1⟩] }
                          ⟨"sql_generate", .sqlGenerate (q ++ refineSuffix), 0⟩ =
                          { plan := ⟨.sql, [⟨"sql_generate", .completed⟩,
                              ⟨"sql_run", .pending⟩, ⟨"verbalize", .pending⟩], [],
                              { sql_wrapped := some (env.respond 2).sql_wrapped,
                                sql_query := some "",
                                columns := some (env.respond 1).columns,
                                refine_hint := true,
                                error := some invalidSqlMsg,
                                memory_updates := guessPreferences (lowerStr goal) memory }, 1⟩,
                            lastResult := some (env.respond 2),
                            stepIndex := some 0,
                            trace := [⟨"sql_generate", .sqlGenerate q, true⟩,
                              ⟨"sql_run", .sqlRun s, true⟩,
                              ⟨"sql_generate", .sqlGenerate (q ++ refineSuffix), true⟩],
                            toolOrder := ["sql_generate", "sql_run", "sql_generate"],
                            hist := [⟨0, "sql_generate", false, 0⟩,
                              ⟨1, "sql_run", true, 1⟩,
                              ⟨0, "sql_generate", false, 1⟩] } := by
                        simp [loopBody, callResult, hregG, reflect, setStatus,
                          hxe2, hex2, strOptTruthy]
                      rw [hbody3] at hrs
                      rw [show shouldStop (⟨.sql, [⟨"sql_generate", .completed⟩,
                          ⟨"sql_run", .pending⟩, ⟨"verbalize", .pending⟩], [],
                          { sql_wrapped := some (env.respond 2).sql_wrapped,
                            sql_query := some "",
                            columns := some (env.respond 1).columns,
                            refine_hint := true,
                            error := some invalidSqlMsg,
                            memory_updates := guessPreferences (lowerStr goal) memory }, 1⟩ : Plan) =
                          true from by simp [shouldStop, strOptTruthy, invalidSqlMsg]] at hrs
                      rw [if_pos rfl] at hrs
                      injection hrs with hrs
                      subst hrs
                      simp at hcnt
                    · have hbody3 : loopBody env
                          { plan := ⟨.sql, [⟨"sql_generate", .pending⟩,
                              ⟨"sql_run", .pending⟩, ⟨"verbalize", .pending⟩], [],
                              { sql_wrapped := some (env.respond 0).sql_wrapped,
                                columns := some (env.respond 1).columns,
                                refine_hint := true,
                                memory_updates := guessPreferences (lowerStr goal) memory }, 1⟩,
                            lastResult := some (env.respond 1),
                            stepIndex := some 1,
                            trace := [⟨"sql_generate", .sqlGenerate q, true⟩,
                              ⟨"sql_run", .sqlRun s, true⟩],
                            toolOrder := ["sql_generate", "sql_run"],
                            hist := [⟨0, "sql_generate", false, 0⟩,
                              ⟨1, "sql_run", true, 1⟩] }
                          ⟨"sql_generate", .sqlGenerate (q ++ refineSuffix), 0⟩ =
                          { plan := ⟨.sql, [⟨"sql_generate", .completed⟩,
                              ⟨"sql_run", .pending⟩, ⟨"verbalize", .pending⟩], [],
                              { sql_wrapped := some (env.respond 2).sql_wrapped,
                                sql_query := some s2,
                                columns := some (env.respond 1).columns,
                                refine_hint := true,
                                memory_updates := guessPreferences (lowerStr goal) memory }, 1⟩,
                            lastResult := some (env.respond 2),
                            stepIndex := some 0,
                            trace := [⟨"sql_generate", .sqlGenerate q, true⟩,
                              ⟨"sql_run", .sqlRun s, true⟩,
                              ⟨"sql_generate", .sqlGenerate (q ++ refineSuffix), true⟩],
                            toolOrder := ["sql_generate", "sql_run", "sql_generate"],
                            hist := [⟨0, "sql_generate", false, 0⟩,
                              ⟨1, "sql_run", true, 1⟩,
                              ⟨0, "sql_generate", false, 1⟩] } := by
                        simp [loopBody, callResult, hregG, reflect, setStatus,
                          hxe2, hex2, strOptTruthy, hs2]
                      rw [hbody3] at hrs
                      rw [show shouldStop (⟨.sql, [⟨"sql_generate", .completed⟩,
                          ⟨"sql_run", .pending⟩, ⟨"verbalize", .pending⟩], [],
                          { sql_wrapped := some (env.respond 2).sql_wrapped,
                            sql_query := some s2,
                            columns := some (env.respond 1).columns,
                            refine_hint := true,
                            memory_updates := guessPreferences (lowerStr goal) memory }, 1⟩ : Plan) =
                          false from by simp [shouldStop, strOptTruthy]] at hrs
                      rw [if_neg (by simp)] at hrs
                      rw [show (2 : Nat) = 1 + 1 from rfl, loop_succ] at hrs
                      have hca4 : chooseAction goal memory
                          (⟨.sql, [⟨"sql_generate", .completed⟩,
                            ⟨"sql_run", .pending⟩, ⟨"verbalize", .pending⟩], [],
                            { sql_wrapped := some (env.respond 2).sql_wrapped,
                              sql_query := some s2,
                              columns := some (env.respond 1).columns,
                              refine_hint := true,
                              memory_updates := guessPreferences (lowerStr goal) memory }, 1⟩ : Plan) =
                          .ok (some ⟨"sql_run", .sqlRun s2, 1⟩) := by
                        simp [chooseAction, scanSteps, hs2]
                      rw [hca4] at hrs
                      dsimp only at hrs
                      have hfin3 : (stF.trace.map TraceRec.tool)[3]? =
                          some "sql_run" := by
                        rw [List.getElem?_map]
                        by_cases hss : shouldStop (loopBody env
                          { plan := ⟨.sql, [⟨"sql_generate", .completed⟩,
                              ⟨"sql_run", .pending⟩, ⟨"verbalize", .pending⟩], [],
                              { sql_wrapped := some (env.respond 2).sql_wrapped,
                                sql_query := some s2,
                                columns := some (env.respond 1).columns,
                                refine_hint := true,
                                memory_updates := guessPreferences (lowerStr goal) memory }, 1⟩,
                            lastResult := some (env.respond 2),
                            stepIndex := some 0,
                            trace := [⟨"sql_generate", .sqlGenerate q, true⟩,
                              ⟨"sql_run", .sqlRun s, true⟩,
                              ⟨"sql_generate", .sqlGenerate (q ++ refineSuffix), true⟩],
                            toolOrder := ["sql_generate", "sql_run", "sql_generate"],
                            hist := [⟨0, "sql_generate", false, 0⟩,
                              ⟨1, "sql_run", true, 1⟩,
                              ⟨0, "sql_generate", false, 1⟩] }
                          ⟨"sql_run", .sqlRun s2, 1⟩).plan
                        · rw [if_pos hss] at hrs
                          injection hrs with hrs
                          subst hrs
                          simp [loopBody]
                        · rw [if_neg hss] at hrs
                          have hstab := loop_trace_stable 1 _ _ 3 hrs
                            (by simp [loopBody])
                          rw [hstab]
                          simp [loopBody]
                      obtain ⟨hreg3, herr3, hrows3⟩ := hok 3 hfin3
                      have hbody4 : loopBody env
                          { plan := ⟨.sql, [⟨"sql_generate", .completed⟩,
                              ⟨"sql_run", .pending⟩, ⟨"verbalize", .pending⟩], [],
                              { sql_wrapped := some (env.respond 2).sql_wrapped,
                                sql_query := some s2,
                                columns := some (env.respond 1).columns,
                                refine_hint := true,
                                memory_updates := guessPreferences (lowerStr goal) memory }, 1⟩,
                            lastResult := some (env.respond 2),
                            stepIndex := some 0,
                            trace := [⟨"sql_generate", .sqlGenerate q, true⟩,
                              ⟨"sql_run", .sqlRun s, true⟩,
                              ⟨"sql_generate", .sqlGenerate (q ++ refineSuffix), true⟩],
                            toolOrder := ["sql_generate", "sql_run", "sql_generate"],
                            hist := [⟨0, "sql_generate", false, 0⟩,
                              ⟨1, "sql_run", true, 1⟩,
                              ⟨0, "sql_generate", false, 1⟩] }
                          ⟨"sql_run", .sqlRun s2, 1⟩ =
                          { plan := ⟨.sql, [⟨"sql_generate", .completed⟩,
                              ⟨"sql_run", .completed⟩, ⟨"verbalize", .pending⟩], [],
                              { sql_wrapped := some (env.respond 2).sql_wrapped,
                                sql_query := some s2,
                                rows := some [],
                                columns := some (env.respond 3).columns,
                                refine_hint := true,
                                no_matches := true,
                                memory_updates := guessPreferences (lowerStr goal) memory }, 1⟩,
                            lastResult := some (env.respond 3),
                            stepIndex := some 1,
                            trace := [⟨"sql_generate", .sqlGenerate q, true⟩,
                              ⟨"sql_run", .sqlRun s, true⟩,
                              ⟨"sql_generate", .sqlGenerate (q ++ refineSuffix), true⟩,
                              ⟨"sql_run", .sqlRun s2, true⟩],
                            toolOrder := ["sql_generate", "sql_run", "sql_generate",
                              "sql_run"],
                            hist := [⟨0, "sql_generate", false, 0⟩,
                              ⟨1, "sql_run", true, 1⟩,
                              ⟨0, "sql_generate", false, 1⟩,
                              ⟨1, "sql_run", false, 1⟩] } := by
                        simp [loopBody, callResult, hreg3, reflect, setStatus,
                          herr3, hrows3]
                      rw [hbody4] at hrs
                      rw [show shouldStop (⟨.sql, [⟨"sql_generate", .completed⟩,
                          ⟨"sql_run", .completed⟩, ⟨"verbalize", .pending⟩], [],
                          { sql_wrapped := some (env.respond 2).sql_wrapped,
                            sql_query := some s2,
                            rows := some [],
                            columns := some (env.respond 3).columns,
                            refine_hint := true,
                            no_matches := true,
                            memory_updates := guessPreferences (lowerStr goal) memory }, 1⟩ : Plan) =
                          true from by simp [shouldStop, strOptTruthy]] at hrs
                      rw [if_pos rfl] at hrs
                      injection hrs with hrs
                      subst hrs
                      refine ⟨by simp, ?_⟩
                      rw [resolvedText_no_matches _ (by simp [strOptTruthy]) rfl
                        (by simp [strOptTruthy]) rfl]
                      show "No matches." ++ "\n" ++ formatTrace
                        ["sql_generate", "sql_run", "sql_generate", "sql_run"] = _
                      decide

/-- C1 witness: the double-refinement environment realizes the
two-empty-results scenario. -/
theorem c1_refinement_bound_witness :
    ((runOr envRefine goalRefine {}).trace.map TraceRec.tool).count "sql_run" ≤ 2 ∧
    (runOr envRefine goalRefine {}).trace.map TraceRec.tool =
      ["sql_generate", "sql_run", "sql_generate", "sql_run"] ∧
    (runOr envRefine goalRefine {}).text =
      "No matches.\nTrace: sql_generate -> sql_run -> sql_generate -> sql_run" := by
  have h := c1_refinement_bound envRefine goalRefine {}
    (runOr envRefine goalRefine {}) rfl (by decide) (by decide)
  have hlen : ((runOr envRefine goalRefine {}).trace.map TraceRec.tool).length = 4 :=
    rfl
  have hkfact : ∀ (k : Nat),
      ((runOr envRefine goalRefine {}).trace.map TraceRec.tool)[k]? =
        some "sql_run" →
      envRefine.registered "sql_run" = true ∧
      (envRefine.respond k).error = none ∧ (envRefine.respond k).rows = [] := by
    intro k hk
    have hk4 : k < 4 := by
      by_contra hge
      rw [List.getElem?_eq_none (by rw [hlen]; omega)] at hk
      cases hk
    rcases (by omega : k = 0 ∨ k = 1 ∨ k = 2 ∨ k = 3) with h0 | h0 | h0 | h0 <;>
      subst h0 <;>
      first
        | (exfalso; revert hk; decide)
        | exact ⟨rfl, rfl, rfl⟩
  have hB := h.2 ⟨by decide, hkfact⟩
  exact ⟨h.1, hB.1, hB.2⟩

end AgentProof
